import Mathlib

/-!
# Arm retargeting: the per-frame cost, its numeric gradient and the trajectory driver

A shallow embedding of `src/arm_hand_retargeting/src/arm_retarget_nlopt.cpp`.

* Scalars (`double` in the source) are elements of a linearly ordered field `α`.
  In the exact model the arithmetic is exact and the two libm calls the cost
  makes, `sqrt` (inside Eigen's `norm`/`normalized`) and `std::acos`, are the
  fields of a `MathOps α` record handed to every function, so the definitions
  stay executable (for instance over `ℚ`) and the theorems say which properties
  of `sqrt` and `acos` they rely on. The claims about the structure of the
  cost and of its gradient are stated in this model.
* `compute_cost` is embedded a second time in double arithmetic
  (`Binary64.compute_cost`): every operation rounds and `std::acos` returns NaN
  outside `[-1, 1]`. The claims about the sign of the cost, its zero, the
  continuity term and the argument of `acos` are stated in that model.
* The KDL forward-kinematics solver is an external collaborator: a
  `ChainFkSolverPos_recursive α` is an arbitrary function from joint values and
  a segment count to a status code and a frame.
* The global flags `first_iter` and `count` are threaded explicitly.
* `ROS_INFO_STREAM` output of `compute_cost` is the `log` of its result.
-/

namespace ArmRetarget

variable {α : Type}

/-! ## The program -/

/-- The libm functions used by the cost: `sqrt` and `std::acos`. -/
structure MathOps (α : Type) where
  sqrt : α → α
  acos : α → α

/-- Wrap-around of `unsigned int` arithmetic. -/
def u32 (n : Nat) : Nat := n % 4294967296

/-- The `unsigned int` difference `n - 1`, which wraps to `UINT_MAX` at 0. -/
def u32_pred (n : Nat) : Nat := if n = 0 then 4294967295 else n - 1

namespace Eigen

/-- Eigen `squaredNorm()`: the sum of the squares of the coefficients. -/
def squaredNorm [LinearOrderedField α] {n : Nat} (v : Fin n → α) : α :=
  ∑ i, v i * v i

/-- Eigen `norm()`: the square root of `squaredNorm()`. -/
def norm [LinearOrderedField α] (m : MathOps α) {n : Nat} (v : Fin n → α) : α :=
  m.sqrt (squaredNorm v)

/-- Eigen `normalized()`: the vector divided by its norm when the squared norm
is positive, the vector itself otherwise. -/
def normalized [LinearOrderedField α] (m : MathOps α) {n : Nat} (v : Fin n → α) :
    Fin n → α :=
  if 0 < squaredNorm v then fun i => v i / m.sqrt (squaredNorm v) else v

/-- Eigen `Map<Vector3d>(data, 3, 1)`: the three doubles at `data`. -/
def Map_Vector3d (data : Fin 3 → α) : Fin 3 → α := data

/-- Eigen `Map<Matrix<double, 3, 3, RowMajor>>(data, 3, 3)`: coefficient
`(i, j)` is `data[3 * i + j]`. -/
def Map_Matrix3d_RowMajor (data : Fin 9 → α) : Matrix (Fin 3) (Fin 3) α :=
  Matrix.of fun i j => data ⟨3 * i.val + j.val, by omega⟩

end Eigen

/-- A `KDL::Frame`: the position `p.data[3]` and the rotation `M.data[9]`
(stored row by row). -/
structure Frame (α : Type) where
  p : Fin 3 → α
  M : Fin 9 → α

/-- A `KDL::ChainFkSolverPos_recursive` for a six-joint chain:
`JntToCart q_in segmentNr` is the returned status (negative on failure) and
the frame written to the output argument. -/
structure ChainFkSolverPos_recursive (α : Type) where
  JntToCart : (Fin 6 → α) → Nat → Int × Frame α

/-- The `my_constraint_struct` of the source. -/
structure my_constraint_struct (α : Type) where
  q_prev : Fin 12 → α
  l_shoulder_pos_goal : Fin 3 → α
  l_elbow_pos_goal : Fin 3 → α
  l_wrist_pos_goal : Fin 3 → α
  l_wrist_ori_goal : Matrix (Fin 3) (Fin 3) α
  r_shoulder_pos_goal : Fin 3 → α
  r_elbow_pos_goal : Fin 3 → α
  r_wrist_pos_goal : Fin 3 → α
  r_wrist_ori_goal : Matrix (Fin 3) (Fin 3) α
  l_robot_shoulder_pos : Fin 3 → α
  r_robot_shoulder_pos : Fin 3 → α
  l_num_wrist_seg : Nat := 0
  l_num_elbow_seg : Nat := 0
  l_num_shoulder_seg : Nat := 0
  r_num_wrist_seg : Nat := 0
  r_num_elbow_seg : Nat := 0
  r_num_shoulder_seg : Nat := 0

/-- What one call of `compute_cost` produces: the returned `double` and the
lines it sent to `ROS_INFO_STREAM`. -/
structure CostEval (α : Type) where
  cost : α
  log : List String

/-- The function `compute_cost` (source lines 80-175).  `first_iter` is the
global flag of the source. -/
def compute_cost [LinearOrderedField α] (m : MathOps α) (first_iter : Bool)
    (fk_solver : ChainFkSolverPos_recursive α) (q_cur : Fin 6 → α)
    (num_wrist_seg num_elbow_seg num_shoulder_seg : Nat) (left_or_right : Bool)
    (fdata : my_constraint_struct α) : CostEval α :=
  let q_in : Fin 6 → α := fun i => q_cur i
  let elbow := fk_solver.JntToCart q_in (u32 (num_elbow_seg + 1))
  if elbow.1 < 0 then
    ⟨-1, ["FK solver failed when processing elbow link, something went wrong"]⟩
  else
  let wrist := fk_solver.JntToCart q_in (u32 (num_wrist_seg + 1))
  if wrist.1 < 0 then
    ⟨-1, ["FK solver failed when processing wrist link, something went wrong"]⟩
  else
  let shoulder := fk_solver.JntToCart q_in (u32 (num_shoulder_seg + 1))
  if shoulder.1 < 0 then
    ⟨-1, ["FK solver failed when processing shoulder link, something went wrong"]⟩
  else
  let elbow_pos_cur := Eigen.Map_Vector3d elbow.2.p
  let wrist_pos_cur := Eigen.Map_Vector3d wrist.2.p
  let wrist_ori_cur := Eigen.Map_Matrix3d_RowMajor wrist.2.M
  let shoulder_pos_cur := Eigen.Map_Vector3d shoulder.2.p
  let q_whole := fdata.q_prev
  let shoulder_pos_human :=
    if left_or_right then fdata.l_shoulder_pos_goal else fdata.r_shoulder_pos_goal
  let elbow_pos_human :=
    if left_or_right then fdata.l_elbow_pos_goal else fdata.r_elbow_pos_goal
  let wrist_pos_human :=
    if left_or_right then fdata.l_wrist_pos_goal else fdata.r_wrist_pos_goal
  let wrist_ori_human :=
    if left_or_right then fdata.l_wrist_ori_goal else fdata.r_wrist_ori_goal
  let q_prev : Fin 6 → α :=
    if left_or_right then
      ![q_whole 0, q_whole 1, q_whole 2, q_whole 3, q_whole 4, q_whole 5]
    else
      ![q_whole 6, q_whole 7, q_whole 8, q_whole 9, q_whole 10, q_whole 11]
  let shoulder_elbow_vec_human := Eigen.normalized m (elbow_pos_human - shoulder_pos_human)
  let elbow_wrist_vec_human := Eigen.normalized m (wrist_pos_human - elbow_pos_human)
  let shoulder_elbow_vec_robot := Eigen.normalized m (elbow_pos_cur - shoulder_pos_cur)
  let elbow_wrist_vec_robot := Eigen.normalized m (wrist_pos_cur - elbow_pos_cur)
  let cost : α :=
    2 * Eigen.norm m (shoulder_elbow_vec_human - shoulder_elbow_vec_robot)
      + 2 * Eigen.norm m (elbow_wrist_vec_human - elbow_wrist_vec_robot)
      + 10 * |m.acos (((wrist_ori_human * wrist_ori_cur.transpose).trace - 1) / 2)|
      + 5 * Eigen.norm m (wrist_pos_human - wrist_pos_cur)
      + 5 * Eigen.norm m (elbow_pos_human - elbow_pos_cur)
  let cost := if !first_iter then cost + 5 * Eigen.norm m (q_cur - q_prev) else cost
  ⟨cost, []⟩

/-- What the URDF file gives for one arm: the names of the segments of the
chain from `world` to the arm's `ee_link`, in order, and the recursive FK
solver constructed over that chain. -/
structure KdlChain (α : Type) where
  segmentNames : List String
  fk_solver : ChainFkSolverPos_recursive α

/-- The segment search loop of `setup_left_kdl` / `setup_right_kdl`: walking
the chain from index `i`, the elbow link ends the loop (`break`), the shoulder
link is recorded and the loop goes on. Returns `(elbow, shoulder)`. -/
def find_segments (ELBOW_LINK SHOULDER_LINK : String) :
    List String → Nat → Nat → Nat → Nat × Nat
  | [], _, num_elbow_seg, num_shoulder_seg => (num_elbow_seg, num_shoulder_seg)
  | name :: rest, i, num_elbow_seg, num_shoulder_seg =>
    if name = ELBOW_LINK then (i, num_shoulder_seg)
    else if name = SHOULDER_LINK then
      find_segments ELBOW_LINK SHOULDER_LINK rest (i + 1) num_elbow_seg i
    else
      find_segments ELBOW_LINK SHOULDER_LINK rest (i + 1) num_elbow_seg num_shoulder_seg

/-- The function `setup_left_kdl` (source lines 179-232), for a URDF that loads:
sets the left segment numbers when one of them is still 0 and returns the
solver. -/
def setup_left_kdl (kdl_chain : KdlChain α) (constraint_data : my_constraint_struct α) :
    ChainFkSolverPos_recursive α × my_constraint_struct α :=
  let constraint_data :=
    if constraint_data.l_num_wrist_seg = 0 ∨ constraint_data.l_num_elbow_seg = 0
        ∨ constraint_data.l_num_shoulder_seg = 0 then
      let num_segments := u32 kdl_chain.segmentNames.length
      let found := find_segments "left_forearm_link" "left_base_link"
        kdl_chain.segmentNames 0 constraint_data.l_num_elbow_seg
        constraint_data.l_num_shoulder_seg
      { constraint_data with
        l_num_wrist_seg := u32_pred num_segments
        l_num_elbow_seg := found.1
        l_num_shoulder_seg := found.2 }
    else constraint_data
  (kdl_chain.fk_solver, constraint_data)

/-- The function `setup_right_kdl` (source lines 236-289). -/
def setup_right_kdl (kdl_chain : KdlChain α) (constraint_data : my_constraint_struct α) :
    ChainFkSolverPos_recursive α × my_constraint_struct α :=
  let constraint_data :=
    if constraint_data.r_num_wrist_seg = 0 ∨ constraint_data.r_num_elbow_seg = 0
        ∨ constraint_data.r_num_shoulder_seg = 0 then
      let num_segments := u32 kdl_chain.segmentNames.length
      let found := find_segments "right_forearm_link" "right_base_link"
        kdl_chain.segmentNames 0 constraint_data.r_num_elbow_seg
        constraint_data.r_num_shoulder_seg
      { constraint_data with
        r_num_wrist_seg := u32_pred num_segments
        r_num_elbow_seg := found.1
        r_num_shoulder_seg := found.2 }
    else constraint_data
  (kdl_chain.fk_solver, constraint_data)

/-- The sum `compute_cost(left, q_l) + compute_cost(right, q_r)` that `myfunc`
forms for its return value and for each finite-difference sample. -/
def two_arm_cost [LinearOrderedField α] (m : MathOps α) (first_iter : Bool)
    (left_fk_solver right_fk_solver : ChainFkSolverPos_recursive α)
    (q_l q_r : Fin 6 → α) (fdata : my_constraint_struct α) : α :=
  let cost := (compute_cost m first_iter left_fk_solver q_l fdata.l_num_wrist_seg
    fdata.l_num_elbow_seg fdata.l_num_shoulder_seg true fdata).cost
  cost + (compute_cost m first_iter right_fk_solver q_r fdata.r_num_wrist_seg
    fdata.r_num_elbow_seg fdata.r_num_shoulder_seg false fdata).cost

/-- What one call of `myfunc` produces: the returned value, the gradient
buffer, the global counter and the constraint data after the call. -/
structure MyfuncResult (α : Type) where
  value : α
  grad : List α
  count : Int
  fdata : my_constraint_struct α

/-- The function `myfunc` (source lines 293-375).  `left_chain` and
`right_chain` are what the URDF file yields; `count` and `first_iter` are the
globals; `x` is the 12-dimensional decision vector and `grad` the gradient
buffer (empty when no gradient is requested). -/
def myfunc [LinearOrderedField α] (m : MathOps α) (first_iter : Bool)
    (left_chain right_chain : KdlChain α) (count : Int)
    (x : Fin 12 → α) (grad : List α) (f_data : my_constraint_struct α) :
    MyfuncResult α :=
  let count := count + 1
  let left := setup_left_kdl left_chain f_data
  let left_fk_solver := left.1
  let right := setup_right_kdl right_chain left.2
  let right_fk_solver := right.1
  let fdata := right.2
  let q_cur_l : Fin 6 → α := ![x 0, x 1, x 2, x 3, x 4, x 5]
  let q_cur_r : Fin 6 → α := ![x 6, x 7, x 8, x 9, x 10, x 11]
  let cost := two_arm_cost m first_iter left_fk_solver right_fk_solver q_cur_l q_cur_r fdata
  let grad :=
    if !grad.isEmpty then
      let eps : α := 1 / 1000
      let grad := (List.finRange 6).foldl (fun grad i =>
        let cost1 := two_arm_cost m first_iter left_fk_solver right_fk_solver
          (Function.update q_cur_l i (q_cur_l i + eps)) q_cur_r fdata
        let cost2 := two_arm_cost m first_iter left_fk_solver right_fk_solver
          (Function.update q_cur_l i (q_cur_l i - eps)) q_cur_r fdata
        grad.set i.val ((cost1 - cost2) / (2 * eps))) grad
      (List.finRange 6).foldl (fun grad j =>
        let cost1 := two_arm_cost m first_iter left_fk_solver right_fk_solver
          q_cur_l (Function.update q_cur_r j (q_cur_r j + eps)) fdata
        let cost2 := two_arm_cost m first_iter left_fk_solver right_fk_solver
          q_cur_l (Function.update q_cur_r j (q_cur_r j - eps)) fdata
        grad.set (6 + j.val) ((cost1 - cost2) / (2 * eps))) grad
    else grad
  ⟨cost, grad, count, fdata⟩

/-! ## The program: `compute_cost` in double arithmetic

The cost once more, with the two features of `double` that the exact model
above leaves out: the result of every arithmetic operation is rounded
(`DoubleOps.fl`, applied after each operation), and `std::acos` returns NaN
for an argument outside `[-1, 1]`. A `double` result is an `Option α`, `none`
being NaN. The inputs (joint values, targets, FK frames) are finite numbers;
overflow, underflow and the sign of zero are not modelled. Every product and
every sum is rounded on its own (no fused multiply-add). The order in which
Eigen adds the terms of a reduction is an implementation detail of Eigen; the
sums below run from left to right, and the sample inputs further down are
chosen so that the other orders give the same doubles. -/

/-- Arithmetic on `double`: `fl x` is the `double` that the exact result `x`
of an operation is rounded to, `sqrt` is the square root on doubles, and
`acos` is `std::acos` for an argument within `[-1, 1]`. -/
structure DoubleOps (α : Type) where
  fl : α → α
  sqrt : α → α
  acos : α → α

namespace Binary64

/-- Eigen `squaredNorm()` in double arithmetic: each square and each partial
sum is rounded. -/
def squaredNorm [LinearOrderedField α] (d : DoubleOps α) {n : Nat} (v : Fin n → α) : α :=
  match List.ofFn v with
  | [] => 0
  | x :: rest => rest.foldl (fun s y => d.fl (s + d.fl (y * y))) (d.fl (x * x))

/-- Eigen `norm()` in double arithmetic. -/
def norm [LinearOrderedField α] (d : DoubleOps α) {n : Nat} (v : Fin n → α) : α :=
  d.sqrt (squaredNorm d v)

/-- Eigen `normalized()` in double arithmetic. -/
def normalized [LinearOrderedField α] (d : DoubleOps α) {n : Nat} (v : Fin n → α) :
    Fin n → α :=
  if 0 < squaredNorm d v then fun i => d.fl (v i / d.sqrt (squaredNorm d v)) else v

/-- The difference of two vectors in double arithmetic. -/
def sub [LinearOrderedField α] (d : DoubleOps α) {n : Nat} (a b : Fin n → α) : Fin n → α :=
  fun i => d.fl (a i - b i)

/-- Coefficient `(i, i)` of `A * B.transpose()` in double arithmetic. -/
def diag_product [LinearOrderedField α] (d : DoubleOps α) (A B : Matrix (Fin 3) (Fin 3) α)
    (i : Fin 3) : α :=
  d.fl (d.fl (d.fl (A i 0 * B i 0) + d.fl (A i 1 * B i 1)) + d.fl (A i 2 * B i 2))

/-- The value `(A * B.transpose()).trace()` in double arithmetic. -/
def trace_product [LinearOrderedField α] (d : DoubleOps α) (A B : Matrix (Fin 3) (Fin 3) α) :
    α :=
  d.fl (d.fl (diag_product d A B 0 + diag_product d A B 1) + diag_product d A B 2)

/-- The argument the source hands to `std::acos` (line 154):
`((wrist_ori_human * wrist_ori_cur.transpose()).trace() - 1.0) / 2.0`. -/
def acos_argument [LinearOrderedField α] (d : DoubleOps α)
    (wrist_ori_human wrist_ori_cur : Matrix (Fin 3) (Fin 3) α) : α :=
  d.fl (d.fl (trace_product d wrist_ori_human wrist_ori_cur - 1) / 2)

/-- The call `std::acos(x)`: NaN for an argument outside `[-1, 1]`. -/
def acos [LinearOrderedField α] (d : DoubleOps α) (x : α) : Option α :=
  if x < -1 ∨ 1 < x then none else some (d.acos x)

/-- The function `compute_cost` (source lines 80-175) in double arithmetic:
the returned `double`, `none` for NaN. -/
def compute_cost [LinearOrderedField α] (d : DoubleOps α) (first_iter : Bool)
    (fk_solver : ChainFkSolverPos_recursive α) (q_cur : Fin 6 → α)
    (num_wrist_seg num_elbow_seg num_shoulder_seg : Nat) (left_or_right : Bool)
    (fdata : my_constraint_struct α) : Option α :=
  let q_in : Fin 6 → α := fun i => q_cur i
  let elbow := fk_solver.JntToCart q_in (u32 (num_elbow_seg + 1))
  if elbow.1 < 0 then some (-1) else
  let wrist := fk_solver.JntToCart q_in (u32 (num_wrist_seg + 1))
  if wrist.1 < 0 then some (-1) else
  let shoulder := fk_solver.JntToCart q_in (u32 (num_shoulder_seg + 1))
  if shoulder.1 < 0 then some (-1) else
  let elbow_pos_cur := Eigen.Map_Vector3d elbow.2.p
  let wrist_pos_cur := Eigen.Map_Vector3d wrist.2.p
  let wrist_ori_cur := Eigen.Map_Matrix3d_RowMajor wrist.2.M
  let shoulder_pos_cur := Eigen.Map_Vector3d shoulder.2.p
  let q_whole := fdata.q_prev
  let shoulder_pos_human :=
    if left_or_right then fdata.l_shoulder_pos_goal else fdata.r_shoulder_pos_goal
  let elbow_pos_human :=
    if left_or_right then fdata.l_elbow_pos_goal else fdata.r_elbow_pos_goal
  let wrist_pos_human :=
    if left_or_right then fdata.l_wrist_pos_goal else fdata.r_wrist_pos_goal
  let wrist_ori_human :=
    if left_or_right then fdata.l_wrist_ori_goal else fdata.r_wrist_ori_goal
  let q_prev : Fin 6 → α :=
    if left_or_right then
      ![q_whole 0, q_whole 1, q_whole 2, q_whole 3, q_whole 4, q_whole 5]
    else
      ![q_whole 6, q_whole 7, q_whole 8, q_whole 9, q_whole 10, q_whole 11]
  let shoulder_elbow_vec_human := normalized d (sub d elbow_pos_human shoulder_pos_human)
  let elbow_wrist_vec_human := normalized d (sub d wrist_pos_human elbow_pos_human)
  let shoulder_elbow_vec_robot := normalized d (sub d elbow_pos_cur shoulder_pos_cur)
  let elbow_wrist_vec_robot := normalized d (sub d wrist_pos_cur elbow_pos_cur)
  match acos d (acos_argument d wrist_ori_human wrist_ori_cur) with
  | none => none
  | some angle =>
    let cost : α :=
      d.fl (d.fl (d.fl (d.fl
        (d.fl (2 * norm d (sub d shoulder_elbow_vec_human shoulder_elbow_vec_robot))
          + d.fl (2 * norm d (sub d elbow_wrist_vec_human elbow_wrist_vec_robot)))
          + d.fl (10 * |angle|))
          + d.fl (5 * norm d (sub d wrist_pos_human wrist_pos_cur)))
          + d.fl (5 * norm d (sub d elbow_pos_human elbow_pos_cur)))
    let cost := if !first_iter then d.fl (cost + d.fl (5 * norm d (sub d q_cur q_prev))) else cost
    some cost

end Binary64

/-- The integer nearest to `s`, the even one of the two when `s` lies half way
between two integers. -/
def round_half_even (s : ℚ) : ℤ :=
  if s - ⌊s⌋ < 1 / 2 then ⌊s⌋
  else if 1 / 2 < s - ⌊s⌋ then ⌊s⌋ + 1
  else if ⌊s⌋ % 2 = 0 then ⌊s⌋ else ⌊s⌋ + 1

/-- The first `n` doubles at `v.data()`, as an Eigen `Map` of fixed size `n`
reads them; `none` when the vector holds fewer than `n`. -/
def vector_data (n : Nat) (v : List α) : Option (Fin n → α) :=
  if h : n ≤ v.length then some (fun i => v.get ⟨i.val, lt_of_lt_of_le i.isLt h⟩) else none

/-- The access `data_vector[j][i]`. -/
def at2 (data_vector : List (List α)) (j i : Nat) : Option α :=
  match data_vector[j]? with
  | some row => row[i]?
  | none => none

/-- The inner loop of the buffer conversion in `write_h5`: row `j` of the raw
buffer, filled for `i = 0, ..., COL - 1`. -/
def copy_row (data_vector : List (List α)) (j : Nat) : Nat → Option (List α)
  | 0 => some []
  | COL + 1 =>
    match copy_row data_vector j COL, at2 data_vector j COL with
    | some filled, some v => some (filled ++ [v])
    | _, _ => none

/-- The outer loop of the buffer conversion in `write_h5`: the raw buffer
`data[ROW][COL]`, filled for `j = 0, ..., ROW - 1`. -/
def copy_buffer (data_vector : List (List α)) (COL : Nat) : Nat → Option (List (List α))
  | 0 => some []
  | ROW + 1 =>
    match copy_buffer data_vector COL ROW, copy_row data_vector ROW COL with
    | some filled, some row => some (filled ++ [row])
    | _, _ => none

/-- The HDF5 exception classes that `write_h5` and `read_h5` have a handler
for. -/
inductive H5Exception
  | FileIException
  | DataSetIException
  | DataSpaceIException
  | DataTypeIException
  deriving DecidableEq

/-- What the HDF5 calls of a `try` block throw: an exception of one of the
four classes with a handler, or an exception of any other class, for which
neither the function nor `main` has a handler (`GroupIException`, thrown by
`Group::openDataSet` for a missing dataset and by `Group::createDataSet` and
`Group::unlink`, is one). -/
inductive Thrown
  | caught (e : H5Exception)
  | uncaught
  deriving DecidableEq

/-- How the process ends: `main` returns `code` or `exit(code)` is called; or
an exception that nothing catches reaches `std::terminate`, which aborts the
process. -/
inductive ProcessEnd
  | exited (code : Int)
  | terminated
  deriving DecidableEq

/-- The conversion of an `int` to `bool`: every non-zero value is `true`. -/
def int_to_bool (n : Int) : Bool := n != 0

/-- The function `write_h5` (source lines 423-526). `try_block` is what the
HDF5 calls of the `try` block do for these names and this buffer: `none` when
they all succeed, what is thrown otherwise. The result is the returned `bool`;
an exception without a handler leaves `write_h5` and `main` and ends the
process. -/
def write_h5 (try_block : String → String → String → List (List α) → Option Thrown)
    (file_name group_name dataset_name : String) (ROW COL : Nat)
    (data_vector : List (List α)) : Option (Except ProcessEnd Bool) :=
  match copy_buffer data_vector COL ROW with
  | none => none
  | some data =>
    match try_block file_name group_name dataset_name data with
    | some (Thrown.caught H5Exception.FileIException) => some (Except.ok (int_to_bool (-1)))
    | some (Thrown.caught H5Exception.DataSetIException) => some (Except.ok (int_to_bool (-1)))
    | some (Thrown.caught H5Exception.DataSpaceIException) => some (Except.ok (int_to_bool (-1)))
    | some (Thrown.caught H5Exception.DataTypeIException) => some (Except.ok (int_to_bool (-1)))
    | some Thrown.uncaught => some (Except.error ProcessEnd.terminated)
    | none => some (Except.ok true)

/-- The function `read_h5` (source lines 530-596). `try_block` is what the
HDF5 calls of the `try` block do for these names: the table read, or what is
thrown. The result is the table, or the way the process ends: `exit(-1)` in
each of the four handlers, `std::terminate` for an exception without a
handler. -/
def read_h5 (try_block : String → String → String → Except Thrown (List (List α)))
    (file_name group_name dataset_name : String) : Except ProcessEnd (List (List α)) :=
  match try_block file_name group_name dataset_name with
  | Except.ok data_vector => Except.ok data_vector
  | Except.error (Thrown.caught H5Exception.FileIException) =>
    Except.error (ProcessEnd.exited (-1))
  | Except.error (Thrown.caught H5Exception.DataSetIException) =>
    Except.error (ProcessEnd.exited (-1))
  | Except.error (Thrown.caught H5Exception.DataSpaceIException) =>
    Except.error (ProcessEnd.exited (-1))
  | Except.error (Thrown.caught H5Exception.DataTypeIException) =>
    Except.error (ProcessEnd.exited (-1))
  | Except.error Thrown.uncaught => Except.error ProcessEnd.terminated

/-- The positive termination statuses of `nlopt::opt::optimize` (the negative
ones are thrown as exceptions). -/
inductive nlopt_result
  | SUCCESS
  | STOPVAL_REACHED
  | FTOL_REACHED
  | XTOL_REACHED
  | MAXEVAL_REACHED
  | MAXTIME_REACHED
  deriving DecidableEq

/-- What `opt.optimize(x, minf)` leaves: the 12 doubles written back to `x`,
the value `minf` and the returned status. -/
structure OptimizeResult (α : Type) where
  x : Fin 12 → α
  minf : α
  opt_result : nlopt_result

/-- The options `getopt_long` yields, in order. -/
inductive CliOption
  | h
  | i (optarg : String)
  | o (optarg : String)
  | g (optarg : String)
  | other

/-- The three names `main` works with. -/
structure Names where
  in_file_name : String
  in_group_name : String
  out_file_name : String

/-- The option loop of `main` (source lines 619-656): `none` when `-h` is met
(`main` returns 0 there), the names otherwise. -/
def process_arguments : List CliOption → Names → Option Names
  | [], names => some names
  | CliOption.h :: _, _ => none
  | CliOption.i optarg :: rest, names =>
    process_arguments rest { names with in_file_name := optarg }
  | CliOption.o optarg :: rest, names =>
    process_arguments rest { names with out_file_name := optarg }
  | CliOption.g optarg :: rest, names =>
    process_arguments rest { names with in_group_name := optarg }
  | CliOption.other :: rest, names => process_arguments rest names

/-- The nine input tables of `main`. -/
structure Tables (α : Type) where
  read_l_wrist_pos_traj : List (List α)
  read_l_wrist_ori_traj : List (List α)
  read_l_elbow_pos_traj : List (List α)
  read_l_shoulder_pos_traj : List (List α)
  read_r_wrist_pos_traj : List (List α)
  read_r_wrist_ori_traj : List (List α)
  read_r_elbow_pos_traj : List (List α)
  read_r_shoulder_pos_traj : List (List α)
  read_time_stamps : List (List α)

/-- The nine `read_h5` calls of `main` (source lines 667-677), in order; the
first failing one ends the process. -/
def read_tables (try_block : String → String → String → Except Thrown (List (List α)))
    (in_file_name in_group_name : String) : Except ProcessEnd (Tables α) := do
  let read_l_wrist_pos_traj ← read_h5 try_block in_file_name in_group_name "l_wrist_pos"
  let read_l_wrist_ori_traj ← read_h5 try_block in_file_name in_group_name "l_wrist_ori"
  let read_l_elbow_pos_traj ← read_h5 try_block in_file_name in_group_name "l_elbow_pos"
  let read_l_shoulder_pos_traj ← read_h5 try_block in_file_name in_group_name "l_shoulder_pos"
  let read_r_wrist_pos_traj ← read_h5 try_block in_file_name in_group_name "r_wrist_pos"
  let read_r_wrist_ori_traj ← read_h5 try_block in_file_name in_group_name "r_wrist_ori"
  let read_r_elbow_pos_traj ← read_h5 try_block in_file_name in_group_name "r_elbow_pos"
  let read_r_shoulder_pos_traj ← read_h5 try_block in_file_name in_group_name "r_shoulder_pos"
  let read_time_stamps ← read_h5 try_block in_file_name in_group_name "time"
  pure ⟨read_l_wrist_pos_traj, read_l_wrist_ori_traj, read_l_elbow_pos_traj,
    read_l_shoulder_pos_traj, read_r_wrist_pos_traj, read_r_wrist_ori_traj,
    read_r_elbow_pos_traj, read_r_shoulder_pos_traj, read_time_stamps⟩

/-- The state the frame loop of `main` works on: the vector `x`, the results
`q_results`, the constraint data, the global `first_iter`, the lines sent to
`std::cout`, and the record of the optimizer calls so far (the initial guess
handed over and the result returned, one entry per call). -/
structure DriverState (α : Type) where
  x : List α
  q_results : List (List α)
  constraint_data : my_constraint_struct α
  first_iter : Bool
  stdout : List String
  guesses : List (List α)
  returned : List (OptimizeResult α)

/-- The rows `it` of the eight pose tables, copied at the start of the loop
body (source lines 746-754). -/
structure FrameRows (α : Type) where
  l_wrist_pos : List α
  l_wrist_ori : List α
  l_elbow_pos : List α
  l_shoulder_pos : List α
  r_wrist_pos : List α
  r_wrist_ori : List α
  r_elbow_pos : List α
  r_shoulder_pos : List α

/-- The eight accesses `read_..._traj[it]` of the loop body (source lines
746-754). -/
def frame_rows (t : Tables α) (it : Nat) : Option (FrameRows α) := do
  let l_wrist_pos ← t.read_l_wrist_pos_traj[it]?
  let l_wrist_ori ← t.read_l_wrist_ori_traj[it]?
  let l_elbow_pos ← t.read_l_elbow_pos_traj[it]?
  let l_shoulder_pos ← t.read_l_shoulder_pos_traj[it]?
  let r_wrist_pos ← t.read_r_wrist_pos_traj[it]?
  let r_wrist_ori ← t.read_r_wrist_ori_traj[it]?
  let r_elbow_pos ← t.read_r_elbow_pos_traj[it]?
  let r_shoulder_pos ← t.read_r_shoulder_pos_traj[it]?
  some ⟨l_wrist_pos, l_wrist_ori, l_elbow_pos, l_shoulder_pos, r_wrist_pos, r_wrist_ori,
    r_elbow_pos, r_shoulder_pos⟩

/-- The goals of one frame as Eigen vectors and matrices. -/
structure FrameGoals (α : Type) where
  l_wrist_pos_goal : Fin 3 → α
  l_wrist_ori_goal : Matrix (Fin 3) (Fin 3) α
  l_elbow_pos_goal : Fin 3 → α
  l_shoulder_pos_goal : Fin 3 → α
  r_wrist_pos_goal : Fin 3 → α
  r_wrist_ori_goal : Matrix (Fin 3) (Fin 3) α
  r_elbow_pos_goal : Fin 3 → α
  r_shoulder_pos_goal : Fin 3 → α

/-- The eight Eigen `Map`s over the copied rows (source lines 761-769): three
doubles of a position row, nine doubles (row-major) of an orientation row. -/
def map_rows (rows : FrameRows α) : Option (FrameGoals α) := do
  let l_wrist_pos_goal ← vector_data 3 rows.l_wrist_pos
  let l_wrist_ori_goal ← vector_data 9 rows.l_wrist_ori
  let l_elbow_pos_goal ← vector_data 3 rows.l_elbow_pos
  let l_shoulder_pos_goal ← vector_data 3 rows.l_shoulder_pos
  let r_wrist_pos_goal ← vector_data 3 rows.r_wrist_pos
  let r_wrist_ori_goal ← vector_data 9 rows.r_wrist_ori
  let r_elbow_pos_goal ← vector_data 3 rows.r_elbow_pos
  let r_shoulder_pos_goal ← vector_data 3 rows.r_shoulder_pos
  some ⟨Eigen.Map_Vector3d l_wrist_pos_goal, Eigen.Map_Matrix3d_RowMajor l_wrist_ori_goal,
    Eigen.Map_Vector3d l_elbow_pos_goal, Eigen.Map_Vector3d l_shoulder_pos_goal,
    Eigen.Map_Vector3d r_wrist_pos_goal, Eigen.Map_Matrix3d_RowMajor r_wrist_ori_goal,
    Eigen.Map_Vector3d r_elbow_pos_goal, Eigen.Map_Vector3d r_shoulder_pos_goal⟩

/-- The goals and the robot's shoulder positions stored in the constraint
data (source lines 772-783). -/
def store_goals [LinearOrderedField α] (goals : FrameGoals α)
    (constraint_data : my_constraint_struct α) : my_constraint_struct α :=
  { constraint_data with
    l_wrist_pos_goal := goals.l_wrist_pos_goal
    l_wrist_ori_goal := goals.l_wrist_ori_goal
    l_elbow_pos_goal := goals.l_elbow_pos_goal
    l_shoulder_pos_goal := goals.l_shoulder_pos_goal
    r_wrist_pos_goal := goals.r_wrist_pos_goal
    r_wrist_ori_goal := goals.r_wrist_ori_goal
    r_elbow_pos_goal := goals.r_elbow_pos_goal
    r_shoulder_pos_goal := goals.r_shoulder_pos_goal
    l_robot_shoulder_pos := ![-(6 / 100), 235 / 1000, 395 / 1000]
    r_robot_shoulder_pos := ![-(6 / 100), -(235 / 1000), 395 / 1000] }

/-- The first part of the loop body (source lines 746-783): the rows `it` of
the eight pose tables, mapped to Eigen vectors and matrices and stored in the
constraint data together with the robot's shoulder positions. -/
def frame_goals [LinearOrderedField α] (t : Tables α) (it : Nat)
    (constraint_data : my_constraint_struct α) : Option (my_constraint_struct α) :=
  match frame_rows t it with
  | none => none
  | some rows =>
    match map_rows rows with
    | none => none
    | some goals => some (store_goals goals constraint_data)

/-- The initial guess the loop body hands to the optimizer (source lines
814-824): `x` as it stands when `first_iter` is set, the previous row of
`q_results` otherwise (`it - 1` in `unsigned int` arithmetic). -/
def initial_guess (it : Nat) (s : DriverState α) : Option (List α) :=
  if s.first_iter then some s.x else s.q_results[u32_pred it]?

/-- The message the loop body prints for a termination status (source lines
826-846). -/
def termination_message : nlopt_result → String
  | nlopt_result.SUCCESS => "Optimization finished successfully."
  | nlopt_result.STOPVAL_REACHED => "Optimization terminated due to STOPVAL reached."
  | nlopt_result.FTOL_REACHED => "Optimization terminated due to FTOL reached."
  | nlopt_result.XTOL_REACHED => "Optimization terminated due to XTOL reached."
  | nlopt_result.MAXEVAL_REACHED => "Optimization terminated due to MAXEVAL reached."
  | nlopt_result.MAXTIME_REACHED => "Optimization terminated due to MAXTIME reached."

/-- The second part of the loop body (source lines 812-864): the optimizer is
run on the initial guess `x0` (which must have the optimizer's dimension 12),
the vector it leaves is stored in `q_results[it]` and in `q_prev`, and
`first_iter` is cleared. -/
def optimize_and_record
    (optimize : my_constraint_struct α → Bool → (Fin 12 → α) → OptimizeResult α)
    (it : Nat) (s : DriverState α) (constraint_data : my_constraint_struct α)
    (x0 : List α) : Option (DriverState α) :=
  if x0.length = 12 then
    match vector_data 12 x0 with
    | none => none
    | some x_data =>
      let r := optimize constraint_data s.first_iter x_data
      let x := List.ofFn r.x
      if it < s.q_results.length then
        match vector_data 12 x with
        | none => none
        | some q_prev =>
          some { x := x
                 q_results := s.q_results.set it x
                 constraint_data := { constraint_data with q_prev := q_prev }
                 first_iter := false
                 stdout := s.stdout ++ [termination_message r.opt_result]
                 guesses := s.guesses ++ [x0]
                 returned := s.returned ++ [r] }
      else none
  else none

/-- The loop body of `main` (source lines 735-886) for frame `it`. -/
def frame_body [LinearOrderedField α]
    (optimize : my_constraint_struct α → Bool → (Fin 12 → α) → OptimizeResult α)
    (t : Tables α) (it : Nat) (s : DriverState α) : Option (DriverState α) :=
  match frame_goals t it s.constraint_data with
  | none => none
  | some constraint_data =>
    match initial_guess it s with
    | none => none
    | some x0 => optimize_and_record optimize it s constraint_data x0

/-- The frame loop of `main`: the state after the iterations
`it = 0, ..., k - 1`, which is the state at the start of frame `k`. -/
def frame_loop [LinearOrderedField α]
    (optimize : my_constraint_struct α → Bool → (Fin 12 → α) → OptimizeResult α)
    (t : Tables α) (s0 : DriverState α) : Nat → Option (DriverState α)
  | 0 => some s0
  | k + 1 =>
    match frame_loop optimize t s0 k with
    | none => none
    | some s => frame_body optimize t k s

/-- The state `main` enters the frame loop with: `x` and the `num_datapoints`
rows of `q_results` hold 12 zeros, `first_iter` is set. -/
def initial_state [LinearOrderedField α] (num_datapoints : Nat)
    (constraint_data : my_constraint_struct α) : DriverState α :=
  { x := List.replicate 12 0
    q_results := List.replicate num_datapoints (List.replicate 12 0)
    constraint_data := constraint_data
    first_iter := true
    stdout := []
    guesses := []
    returned := [] }

/-- What `main` depends on outside the program: the HDF5 store (what the
`try` blocks of `read_h5` and `write_h5` do), the chains the URDF file yields
for the two arms (`none` when the tree or the chain cannot be built), and the
optimizer run on the objective `myfunc` for given constraint data and
`first_iter`. -/
structure MainEnv (α : Type) where
  h5_read : String → String → String → Except Thrown (List (List α))
  h5_write : String → String → String → List (List α) → Option Thrown
  left_chain : Option (KdlChain α)
  right_chain : Option (KdlChain α)
  optimize : my_constraint_struct α → Bool → (Fin 12 → α) → OptimizeResult α

/-- How a run of `main` ends: the way the process ends, the lines sent to
`std::cout`, and the joint trajectory. -/
structure MainResult (α : Type) where
  ended : ProcessEnd
  stdout : List String
  q_results : List (List α)

/-- The part of `main` after the tables are read (source lines 681-912). -/
def main_body [LinearOrderedField α] (env : MainEnv α) (names : Names) (t : Tables α)
    (constraint_data : my_constraint_struct α) : Option (MainResult α) :=
  let num_datapoints := t.read_l_wrist_pos_traj.length
  match env.left_chain with
  | none => some ⟨ProcessEnd.exited (-1), [], []⟩
  | some left_chain =>
    let constraint_data := (setup_left_kdl left_chain constraint_data).2
    match env.right_chain with
    | none => some ⟨ProcessEnd.exited (-1), [], []⟩
    | some right_chain =>
      let constraint_data := (setup_right_kdl right_chain constraint_data).2
      match frame_loop env.optimize t (initial_state num_datapoints constraint_data)
          num_datapoints with
      | none => none
      | some s =>
        match write_h5 env.h5_write names.out_file_name names.in_group_name "arm_traj_1"
            num_datapoints 12 s.q_results with
        | none => none
        | some (Except.error e) => some ⟨e, s.stdout, s.q_results⟩
        | some (Except.ok result1) =>
          match write_h5 env.h5_write names.out_file_name names.in_group_name "timestamp_1"
              num_datapoints 1 t.read_time_stamps with
          | none => none
          | some (Except.error e) => some ⟨e, s.stdout, s.q_results⟩
          | some (Except.ok result2) =>
            some ⟨ProcessEnd.exited 0,
              if result1 && result2 then
                s.stdout ++ ["Joint path results successfully stored!"]
              else s.stdout,
              s.q_results⟩

/-- The function `main` (source lines 600-912). `uninitialised` stands for the
members of `constraint_data` that have no initializer. -/
def main [LinearOrderedField α] (env : MainEnv α) (argv : List CliOption)
    (uninitialised : my_constraint_struct α) : Option (MainResult α) :=
  match process_arguments argv ⟨"test_imi_data_UR5.h5", "fengren", "mocap_ik_results.h5"⟩ with
  | none => some ⟨ProcessEnd.exited 0, [], []⟩
  | some names =>
    match read_tables env.h5_read names.in_file_name names.in_group_name with
    | Except.error e => some ⟨e, [], []⟩
    | Except.ok t =>
      main_body env names t
        { uninitialised with
          l_num_wrist_seg := 0
          l_num_elbow_seg := 0
          l_num_shoulder_seg := 0
          r_num_wrist_seg := 0
          r_num_elbow_seg := 0
          r_num_shoulder_seg := 0 }

/-- The pose of one arm: shoulder, elbow and wrist positions and the wrist
orientation (the `ArmPoseTarget` of the specification; also used for the pose
forward kinematics gives the robot arm). -/
structure ArmPose (α : Type) where
  shoulder : Fin 3 → α
  elbow : Fin 3 → α
  wrist : Fin 3 → α
  wrist_ori : Matrix (Fin 3) (Fin 3) α

/-- The target pose of the selected arm stored in the constraint data
(`true` selects the left arm). -/
def arm_target (fdata : my_constraint_struct α) (left_or_right : Bool) : ArmPose α :=
  if left_or_right then
    ⟨fdata.l_shoulder_pos_goal, fdata.l_elbow_pos_goal, fdata.l_wrist_pos_goal,
      fdata.l_wrist_ori_goal⟩
  else
    ⟨fdata.r_shoulder_pos_goal, fdata.r_elbow_pos_goal, fdata.r_wrist_pos_goal,
      fdata.r_wrist_ori_goal⟩

/-- The selected arm's block of the previous solution: entries 0..5 for the
left arm, entries 6..11 for the right arm. -/
def arm_q_prev (fdata : my_constraint_struct α) (left_or_right : Bool) : Fin 6 → α :=
  fun i => if left_or_right then fdata.q_prev (Fin.castAdd 6 i) else fdata.q_prev (Fin.natAdd 6 i)

/-- Forward kinematics succeeds at `q` for the elbow, wrist and shoulder
segments: none of the three status codes is negative. -/
def fk_succeeds (fk_solver : ChainFkSolverPos_recursive α) (q : Fin 6 → α)
    (num_wrist_seg num_elbow_seg num_shoulder_seg : Nat) : Prop :=
  0 ≤ (fk_solver.JntToCart q (u32 (num_elbow_seg + 1))).1
    ∧ 0 ≤ (fk_solver.JntToCart q (u32 (num_wrist_seg + 1))).1
    ∧ 0 ≤ (fk_solver.JntToCart q (u32 (num_shoulder_seg + 1))).1

/-- The robot arm's pose at `q` according to forward kinematics. -/
def robot_pose (fk_solver : ChainFkSolverPos_recursive α) (q : Fin 6 → α)
    (num_wrist_seg num_elbow_seg num_shoulder_seg : Nat) : ArmPose α :=
  ⟨(fk_solver.JntToCart q (u32 (num_shoulder_seg + 1))).2.p,
    (fk_solver.JntToCart q (u32 (num_elbow_seg + 1))).2.p,
    (fk_solver.JntToCart q (u32 (num_wrist_seg + 1))).2.p,
    Eigen.Map_Matrix3d_RowMajor (fk_solver.JntToCart q (u32 (num_wrist_seg + 1))).2.M⟩

/-- The normalized shoulder-to-elbow vector of a pose. -/
def dir_se [LinearOrderedField α] (m : MathOps α) (pose : ArmPose α) : Fin 3 → α :=
  Eigen.normalized m (fun i => pose.elbow i - pose.shoulder i)

/-- The normalized elbow-to-wrist vector of a pose. -/
def dir_ew [LinearOrderedField α] (m : MathOps α) (pose : ArmPose α) : Fin 3 → α :=
  Eigen.normalized m (fun i => pose.wrist i - pose.elbow i)

/-- The five pose terms of the cost as the specification writes them. -/
def spec_pose_cost [LinearOrderedField α] (m : MathOps α) (human robot : ArmPose α) : α :=
  2 * Eigen.norm m (fun i => dir_se m human i - dir_se m robot i)
    + 2 * Eigen.norm m (fun i => dir_ew m human i - dir_ew m robot i)
    + 10 * |m.acos (((human.wrist_ori * robot.wrist_ori.transpose).trace - 1) / 2)|
    + 5 * Eigen.norm m (fun i => human.wrist i - robot.wrist i)
    + 5 * Eigen.norm m (fun i => human.elbow i - robot.elbow i)

/-- The continuity term of the specification. -/
def spec_continuity [LinearOrderedField α] (m : MathOps α) (q q_prev : Fin 6 → α) : α :=
  5 * Eigen.norm m (fun i => q i - q_prev i)

namespace Binary64

/-- The normalized shoulder-to-elbow vector of a pose in double arithmetic. -/
def dir_se [LinearOrderedField α] (d : DoubleOps α) (pose : ArmPose α) : Fin 3 → α :=
  normalized d (sub d pose.elbow pose.shoulder)

/-- The normalized elbow-to-wrist vector of a pose in double arithmetic. -/
def dir_ew [LinearOrderedField α] (d : DoubleOps α) (pose : ArmPose α) : Fin 3 → α :=
  normalized d (sub d pose.wrist pose.elbow)

/-- The sum of the five weighted pose terms in double arithmetic, for the
value `angle` that `std::acos` returned. -/
def pose_sum [LinearOrderedField α] (d : DoubleOps α) (human robot : ArmPose α) (angle : α) :
    α :=
  d.fl (d.fl (d.fl (d.fl
    (d.fl (2 * norm d (sub d (dir_se d human) (dir_se d robot)))
      + d.fl (2 * norm d (sub d (dir_ew d human) (dir_ew d robot))))
      + d.fl (10 * |angle|))
      + d.fl (5 * norm d (sub d human.wrist robot.wrist)))
      + d.fl (5 * norm d (sub d human.elbow robot.elbow)))

/-- The cost after the continuity term `5 * ‖q - q_prev‖` is added to the pose
sum `c`, which happens when the first-frame flag is false. -/
def with_continuity [LinearOrderedField α] (d : DoubleOps α) (first_iter : Bool)
    (q q_prev : Fin 6 → α) (c : α) : α :=
  if first_iter then c else d.fl (c + d.fl (5 * norm d (sub d q q_prev)))

end Binary64

/-- The left-arm summand of the objective: `compute_cost` for the left arm at
`(x[0], ..., x[5])` with the left solver and the left segment numbers as
`setup_left_kdl` leaves them. -/
def left_arm_cost [LinearOrderedField α] (m : MathOps α) (first_iter : Bool)
    (left_chain : KdlChain α) (x : Fin 12 → α) (f_data : my_constraint_struct α) : α :=
  (compute_cost m first_iter (setup_left_kdl left_chain f_data).1
    ![x 0, x 1, x 2, x 3, x 4, x 5]
    (setup_left_kdl left_chain f_data).2.l_num_wrist_seg
    (setup_left_kdl left_chain f_data).2.l_num_elbow_seg
    (setup_left_kdl left_chain f_data).2.l_num_shoulder_seg true f_data).cost

/-- The right-arm summand of the objective: `compute_cost` for the right arm
at `(x[6], ..., x[11])` with the right solver and the right segment numbers as
`setup_right_kdl` leaves them. -/
def right_arm_cost [LinearOrderedField α] (m : MathOps α) (first_iter : Bool)
    (right_chain : KdlChain α) (x : Fin 12 → α) (f_data : my_constraint_struct α) : α :=
  (compute_cost m first_iter (setup_right_kdl right_chain f_data).1
    ![x 6, x 7, x 8, x 9, x 10, x 11]
    (setup_right_kdl right_chain f_data).2.r_num_wrist_seg
    (setup_right_kdl right_chain f_data).2.r_num_elbow_seg
    (setup_right_kdl right_chain f_data).2.r_num_shoulder_seg false f_data).cost

/-- The decision vector with entries 0..5 of `xl` and entries 6..11 of `xr`. -/
def merge_blocks (xl xr : Fin 12 → α) : Fin 12 → α :=
  fun i => if i.val < 6 then xl i else xr i

/-- The constraint data with the left-arm part of `fd` (targets, segment
numbers, robot shoulder, entries 0..5 of `q_prev`) and the right-arm part of
`other`. -/
def with_right_arm (fd other : my_constraint_struct α) : my_constraint_struct α :=
  { fd with
    q_prev := merge_blocks fd.q_prev other.q_prev
    r_shoulder_pos_goal := other.r_shoulder_pos_goal
    r_elbow_pos_goal := other.r_elbow_pos_goal
    r_wrist_pos_goal := other.r_wrist_pos_goal
    r_wrist_ori_goal := other.r_wrist_ori_goal
    r_robot_shoulder_pos := other.r_robot_shoulder_pos
    r_num_wrist_seg := other.r_num_wrist_seg
    r_num_elbow_seg := other.r_num_elbow_seg
    r_num_shoulder_seg := other.r_num_shoulder_seg }

/-- The constraint data with the right-arm part of `fd` and the left-arm part
of `other`. -/
def with_left_arm (fd other : my_constraint_struct α) : my_constraint_struct α :=
  { fd with
    q_prev := merge_blocks other.q_prev fd.q_prev
    l_shoulder_pos_goal := other.l_shoulder_pos_goal
    l_elbow_pos_goal := other.l_elbow_pos_goal
    l_wrist_pos_goal := other.l_wrist_pos_goal
    l_wrist_ori_goal := other.l_wrist_ori_goal
    l_robot_shoulder_pos := other.l_robot_shoulder_pos
    l_num_wrist_seg := other.l_num_wrist_seg
    l_num_elbow_seg := other.l_num_elbow_seg
    l_num_shoulder_seg := other.l_num_shoulder_seg }

/-- The central finite difference of `C` at `x` in coordinate `i` with the
step `eps = 0.001` of the source. -/
def central_difference [LinearOrderedField α] (C : (Fin 12 → α) → α) (x : Fin 12 → α)
    (i : Fin 12) : α :=
  (C (Function.update x i (x i + 1 / 1000)) - C (Function.update x i (x i - 1 / 1000)))
    / (2 * (1 / 1000))

/-- The precondition on the nine input tables: each has `N` rows, position
rows have width 3, orientation rows width 9, time rows width at least 1. -/
structure tables_well_formed (t : Tables α) (N : Nat) : Prop where
  l_wrist_pos_rows : t.read_l_wrist_pos_traj.length = N
  l_wrist_ori_rows : t.read_l_wrist_ori_traj.length = N
  l_elbow_pos_rows : t.read_l_elbow_pos_traj.length = N
  l_shoulder_pos_rows : t.read_l_shoulder_pos_traj.length = N
  r_wrist_pos_rows : t.read_r_wrist_pos_traj.length = N
  r_wrist_ori_rows : t.read_r_wrist_ori_traj.length = N
  r_elbow_pos_rows : t.read_r_elbow_pos_traj.length = N
  r_shoulder_pos_rows : t.read_r_shoulder_pos_traj.length = N
  time_rows : t.read_time_stamps.length = N
  l_wrist_pos_width : ∀ row ∈ t.read_l_wrist_pos_traj, row.length = 3
  l_wrist_ori_width : ∀ row ∈ t.read_l_wrist_ori_traj, row.length = 9
  l_elbow_pos_width : ∀ row ∈ t.read_l_elbow_pos_traj, row.length = 3
  l_shoulder_pos_width : ∀ row ∈ t.read_l_shoulder_pos_traj, row.length = 3
  r_wrist_pos_width : ∀ row ∈ t.read_r_wrist_pos_traj, row.length = 3
  r_wrist_ori_width : ∀ row ∈ t.read_r_wrist_ori_traj, row.length = 9
  r_elbow_pos_width : ∀ row ∈ t.read_r_elbow_pos_traj, row.length = 3
  r_shoulder_pos_width : ∀ row ∈ t.read_r_shoulder_pos_traj, row.length = 3
  time_width : ∀ row ∈ t.read_time_stamps, 1 ≤ row.length

/-- The invariant of the trajectory driver at the start of frame `k` of `N`:
the shapes of `x` and `q_results`, the value of `first_iter`, one recorded
optimizer call per finished frame, every returned vector stored in its row of
`q_results`, the last one also in `q_prev` and `x`, and the initial guesses
(zeros for frame 0, the previous row of `q_results` afterwards). -/
structure DriverInv [LinearOrderedField α] (N k : Nat) (s : DriverState α) : Prop where
  q_len : s.q_results.length = N
  rows : ∀ row ∈ s.q_results, row.length = 12
  x_len : s.x.length = 12
  first : s.first_iter = decide (k = 0)
  guesses_len : s.guesses.length = k
  returned_len : s.returned.length = k
  recorded : ∀ (j : Nat) (r : OptimizeResult α),
    s.returned[j]? = some r → s.q_results[j]? = some (List.ofFn r.x)
  prev : ∀ r : OptimizeResult α, s.returned[k - 1]? = some r →
    s.constraint_data.q_prev = r.x ∧ s.x = List.ofFn r.x
  x_zero : k = 0 → s.x = List.replicate 12 0
  guess_zero : ∀ g : List α, s.guesses[0]? = some g → g = List.replicate 12 0
  guess_succ : ∀ j : Nat, j + 1 < k → s.guesses[j + 1]? = s.q_results[j]?

/-! ## Sample inputs -/

/-- A solver that succeeds everywhere and puts every segment at the origin
with the identity orientation. -/
def sample_fk [LinearOrderedField α] : ChainFkSolverPos_recursive α :=
  ⟨fun _ _ => (0, ⟨![0, 0, 0], ![1, 0, 0, 0, 1, 0, 0, 0, 1]⟩)⟩

/-- A solver that succeeds for segment counts up to 4 and fails beyond. -/
def short_fk [LinearOrderedField α] : ChainFkSolverPos_recursive α :=
  ⟨fun _ n => (if n ≤ 4 then 0 else -1, ⟨![0, 0, 0], ![1, 0, 0, 0, 1, 0, 0, 0, 1]⟩)⟩

/-- Constraint data with every target at the origin, identity target
orientations and the segment numbers of an eight-segment chain. -/
def sample_fdata [LinearOrderedField α] : my_constraint_struct α :=
  { q_prev := fun _ => 0
    l_shoulder_pos_goal := ![0, 0, 0]
    l_elbow_pos_goal := ![0, 0, 0]
    l_wrist_pos_goal := ![0, 0, 0]
    l_wrist_ori_goal := 1
    r_shoulder_pos_goal := ![0, 0, 0]
    r_elbow_pos_goal := ![0, 0, 0]
    r_wrist_pos_goal := ![0, 0, 0]
    r_wrist_ori_goal := 1
    l_robot_shoulder_pos := ![0, 0, 0]
    r_robot_shoulder_pos := ![0, 0, 0]
    l_num_wrist_seg := 7
    l_num_elbow_seg := 3
    l_num_shoulder_seg := 0
    r_num_wrist_seg := 7
    r_num_elbow_seg := 3
    r_num_shoulder_seg := 0 }

/-- The left chain of the UR5 description: eight segments from `world` to
`left_ee_link`. -/
def sample_left_chain (fk : ChainFkSolverPos_recursive α) : KdlChain α :=
  ⟨["left_base_link", "left_shoulder_link", "left_upper_arm_link", "left_forearm_link",
      "left_wrist_1_link", "left_wrist_2_link", "left_wrist_3_link", "left_ee_link"], fk⟩

/-- The right chain of the UR5 description: eight segments from `world` to
`right_ee_link`. -/
def sample_right_chain (fk : ChainFkSolverPos_recursive α) : KdlChain α :=
  ⟨["right_base_link", "right_shoulder_link", "right_upper_arm_link", "right_forearm_link",
      "right_wrist_1_link", "right_wrist_2_link", "right_wrist_3_link", "right_ee_link"], fk⟩

/-- Two frames of input: every position at the origin, identity orientations,
time stamps 0 and 1. -/
def sample_tables [LinearOrderedField α] : Tables α :=
  { read_l_wrist_pos_traj := [[0, 0, 0], [0, 0, 0]]
    read_l_wrist_ori_traj := [[1, 0, 0, 0, 1, 0, 0, 0, 1], [1, 0, 0, 0, 1, 0, 0, 0, 1]]
    read_l_elbow_pos_traj := [[0, 0, 0], [0, 0, 0]]
    read_l_shoulder_pos_traj := [[0, 0, 0], [0, 0, 0]]
    read_r_wrist_pos_traj := [[0, 0, 0], [0, 0, 0]]
    read_r_wrist_ori_traj := [[1, 0, 0, 0, 1, 0, 0, 0, 1], [1, 0, 0, 0, 1, 0, 0, 0, 1]]
    read_r_elbow_pos_traj := [[0, 0, 0], [0, 0, 0]]
    read_r_shoulder_pos_traj := [[0, 0, 0], [0, 0, 0]]
    read_time_stamps := [[0], [1]] }

/-- An optimizer that moves every joint by 1 and stops on the evaluation
budget. -/
def sample_optimize [LinearOrderedField α] :
    my_constraint_struct α → Bool → (Fin 12 → α) → OptimizeResult α :=
  fun _ _ x => ⟨fun i => x i + 1, 0, nlopt_result.MAXEVAL_REACHED⟩

/-- A store that holds the sample tables under every file and group name. -/
def sample_h5_read [LinearOrderedField α] :
    String → String → String → Except Thrown (List (List α)) :=
  fun _ _ dataset_name =>
    if dataset_name = "time" then Except.ok sample_tables.read_time_stamps
    else if dataset_name = "l_wrist_ori" ∨ dataset_name = "r_wrist_ori" then
      Except.ok sample_tables.read_l_wrist_ori_traj
    else Except.ok sample_tables.read_l_wrist_pos_traj

/-- The environment with the sample store, the UR5 chains with the sample
solver and the sample optimizer; every write ends as `write_outcome` says. -/
def sample_env [LinearOrderedField α] (write_outcome : Option Thrown) : MainEnv α :=
  { h5_read := sample_h5_read
    h5_write := fun _ _ _ _ => write_outcome
    left_chain := some (sample_left_chain sample_fk)
    right_chain := some (sample_right_chain sample_fk)
    optimize := sample_optimize }

theorem arm_q_prev_left (fdata : my_constraint_struct α) :
    arm_q_prev fdata true = ![fdata.q_prev 0, fdata.q_prev 1, fdata.q_prev 2,
      fdata.q_prev 3, fdata.q_prev 4, fdata.q_prev 5] := by
  funext i
  fin_cases i <;> rfl

theorem arm_q_prev_right (fdata : my_constraint_struct α) :
    arm_q_prev fdata false = ![fdata.q_prev 6, fdata.q_prev 7, fdata.q_prev 8,
      fdata.q_prev 9, fdata.q_prev 10, fdata.q_prev 11] := by
  funext i
  fin_cases i <;> rfl

theorem compute_cost_of_fk_ok [LinearOrderedField α] (m : MathOps α) (first_iter : Bool)
    (fk_solver : ChainFkSolverPos_recursive α) (q : Fin 6 → α)
    (nw ne ns : Nat) (side : Bool) (fdata : my_constraint_struct α)
    (h : fk_succeeds fk_solver q nw ne ns) :
    compute_cost m first_iter fk_solver q nw ne ns side fdata =
      ⟨spec_pose_cost m (arm_target fdata side) (robot_pose fk_solver q nw ne ns)
        + (if first_iter then 0 else spec_continuity m q (arm_q_prev fdata side)), []⟩ := by
  obtain ⟨he, hw, hs⟩ := h
  cases side <;> cases first_iter <;>
    simp [compute_cost, not_lt.mpr he, not_lt.mpr hw, not_lt.mpr hs, spec_pose_cost,
      spec_continuity, arm_target, robot_pose, dir_se, dir_ew, Eigen.Map_Vector3d,
      arm_q_prev_left, arm_q_prev_right] <;> rfl

theorem compute_cost_of_fk_fail [LinearOrderedField α] (m : MathOps α) (first_iter : Bool)
    (fk_solver : ChainFkSolverPos_recursive α) (q : Fin 6 → α)
    (nw ne ns : Nat) (side : Bool) (fdata : my_constraint_struct α)
    (h : ¬ fk_succeeds fk_solver q nw ne ns) :
    compute_cost m first_iter fk_solver q nw ne ns side fdata =
      ⟨-1,
        if (fk_solver.JntToCart q (u32 (ne + 1))).1 < 0 then
          ["FK solver failed when processing elbow link, something went wrong"]
        else if (fk_solver.JntToCart q (u32 (nw + 1))).1 < 0 then
          ["FK solver failed when processing wrist link, something went wrong"]
        else
          ["FK solver failed when processing shoulder link, something went wrong"]⟩ := by
  unfold fk_succeeds at h
  by_cases he : (fk_solver.JntToCart q (u32 (ne + 1))).1 < 0
  · simp [compute_cost, he]
  · by_cases hw : (fk_solver.JntToCart q (u32 (nw + 1))).1 < 0
    · simp [compute_cost, he, hw]
    · have hs : (fk_solver.JntToCart q (u32 (ns + 1))).1 < 0 := by
        by_contra hs
        exact h ⟨not_lt.mp he, not_lt.mp hw, not_lt.mp hs⟩
      simp [compute_cost, he, hw, hs]

theorem sample_fk_succeeds [LinearOrderedField α] (q : Fin 6 → α) (nw ne ns : Nat) :
    fk_succeeds (sample_fk : ChainFkSolverPos_recursive α) q nw ne ns := by
  simp [fk_succeeds, sample_fk]

theorem norm_sub_self [LinearOrderedField α] (m : MathOps α) (hsqrt0 : m.sqrt 0 = 0)
    {n : Nat} (v : Fin n → α) : Eigen.norm m (fun i => v i - v i) = 0 := by
  simp [Eigen.norm, Eigen.squaredNorm, hsqrt0]

theorem spec_pose_cost_self [LinearOrderedField α] (m : MathOps α)
    (hsqrt0 : m.sqrt 0 = 0) (hacos1 : m.acos 1 = 0) (pose : ArmPose α)
    (horth : pose.wrist_ori * pose.wrist_ori.transpose = 1) :
    spec_pose_cost m pose pose = 0 := by
  have htr : ((pose.wrist_ori * pose.wrist_ori.transpose).trace - 1) / 2 = 1 := by
    rw [horth, Matrix.trace_one]
    norm_num
  simp only [spec_pose_cost, norm_sub_self m hsqrt0, htr, hacos1, abs_zero, mul_zero,
    add_zero]

theorem Map_Matrix3d_RowMajor_identity [LinearOrderedField α] :
    Eigen.Map_Matrix3d_RowMajor (![1, 0, 0, 0, 1, 0, 0, 0, 1] : Fin 9 → α) = 1 := by
  ext i j
  fin_cases i <;> fin_cases j <;> simp [Eigen.Map_Matrix3d_RowMajor] <;> rfl

theorem sample_target_eq_pose [LinearOrderedField α] (q : Fin 6 → α) (nw ne ns : Nat)
    (side : Bool) :
    arm_target (sample_fdata : my_constraint_struct α) side
      = robot_pose sample_fk q nw ne ns := by
  cases side <;>
    simp [arm_target, robot_pose, sample_fdata, sample_fk, Map_Matrix3d_RowMajor_identity]

theorem Binary64.cost_of_fk_ok [LinearOrderedField α] (d : DoubleOps α)
    (first_iter : Bool) (fk_solver : ChainFkSolverPos_recursive α) (q : Fin 6 → α)
    (nw ne ns : Nat) (side : Bool) (fdata : my_constraint_struct α)
    (h : fk_succeeds fk_solver q nw ne ns) :
    Binary64.compute_cost d first_iter fk_solver q nw ne ns side fdata =
      if Binary64.acos_argument d (arm_target fdata side).wrist_ori
            (robot_pose fk_solver q nw ne ns).wrist_ori < -1
          ∨ 1 < Binary64.acos_argument d (arm_target fdata side).wrist_ori
            (robot_pose fk_solver q nw ne ns).wrist_ori then none
      else some (Binary64.with_continuity d first_iter q (arm_q_prev fdata side)
        (Binary64.pose_sum d (arm_target fdata side) (robot_pose fk_solver q nw ne ns)
          (d.acos (Binary64.acos_argument d (arm_target fdata side).wrist_ori
            (robot_pose fk_solver q nw ne ns).wrist_ori)))) := by
  obtain ⟨he, hw, hs⟩ := h
  cases side <;> cases first_iter <;>
    simp only [Binary64.compute_cost, not_lt.mpr he, not_lt.mpr hw, not_lt.mpr hs, if_false,
      Binary64.acos, arm_target, robot_pose, Eigen.Map_Vector3d, arm_q_prev_left,
      arm_q_prev_right, Binary64.with_continuity, Binary64.pose_sum, Binary64.dir_se,
      Binary64.dir_ew, Bool.false_eq_true, if_true, Bool.not_true, Bool.not_false] <;>
    split_ifs <;> rfl

theorem Binary64.cost_of_fk_fail [LinearOrderedField α] (d : DoubleOps α)
    (first_iter : Bool) (fk_solver : ChainFkSolverPos_recursive α) (q : Fin 6 → α)
    (nw ne ns : Nat) (side : Bool) (fdata : my_constraint_struct α)
    (h : ¬ fk_succeeds fk_solver q nw ne ns) :
    Binary64.compute_cost d first_iter fk_solver q nw ne ns side fdata = some (-1) := by
  unfold fk_succeeds at h
  by_cases he : (fk_solver.JntToCart q (u32 (ne + 1))).1 < 0
  · simp [Binary64.compute_cost, he]
  · by_cases hw : (fk_solver.JntToCart q (u32 (nw + 1))).1 < 0
    · simp [Binary64.compute_cost, he, hw]
    · have hs : (fk_solver.JntToCart q (u32 (ns + 1))).1 < 0 := by
        by_contra hs
        exact h ⟨not_lt.mp he, not_lt.mp hw, not_lt.mp hs⟩
      simp [Binary64.compute_cost, he, hw, hs]

theorem Binary64.foldl_nonneg [LinearOrderedField α] (d : DoubleOps α)
    (hfl : ∀ x, 0 ≤ x → 0 ≤ d.fl x) (l : List α) (s : α) (hs : 0 ≤ s) :
    0 ≤ l.foldl (fun s y => d.fl (s + d.fl (y * y))) s := by
  induction l generalizing s with
  | nil => exact hs
  | cons y rest ih =>
    exact ih _ (hfl _ (add_nonneg hs (hfl _ (mul_self_nonneg y))))

theorem Binary64.squaredNorm_nonneg [LinearOrderedField α] (d : DoubleOps α)
    (hfl : ∀ x, 0 ≤ x → 0 ≤ d.fl x) {n : Nat} (v : Fin n → α) :
    0 ≤ Binary64.squaredNorm d v := by
  unfold Binary64.squaredNorm
  cases List.ofFn v with
  | nil => exact le_refl 0
  | cons x rest => exact Binary64.foldl_nonneg d hfl rest _ (hfl _ (mul_self_nonneg x))

theorem Binary64.sub_self [LinearOrderedField α] (d : DoubleOps α) (h0 : d.fl 0 = 0)
    {n : Nat} (v : Fin n → α) : Binary64.sub d v v = fun _ => 0 := by
  funext i
  simp [Binary64.sub, h0]

theorem Binary64.foldl_zero [LinearOrderedField α] (d : DoubleOps α) (h0 : d.fl 0 = 0)
    (k : Nat) : (List.replicate k (0 : α)).foldl (fun s y => d.fl (s + d.fl (y * y))) 0 = 0 := by
  induction k with
  | zero => rfl
  | succ k ih => simpa [List.replicate_succ, h0] using ih

theorem Binary64.squaredNorm_zero [LinearOrderedField α] (d : DoubleOps α) (h0 : d.fl 0 = 0)
    {n : Nat} : Binary64.squaredNorm d (fun _ : Fin n => (0 : α)) = 0 := by
  unfold Binary64.squaredNorm
  rw [List.ofFn_const]
  cases n with
  | zero => rfl
  | succ k =>
    simp only [List.replicate_succ, mul_zero, h0]
    exact Binary64.foldl_zero d h0 k

theorem Binary64.norm_of_sub_self [LinearOrderedField α] (d : DoubleOps α) (h0 : d.fl 0 = 0)
    (hsqrt0 : d.sqrt 0 = 0) {n : Nat} (v : Fin n → α) :
    Binary64.norm d (Binary64.sub d v v) = 0 := by
  rw [Binary64.sub_self d h0, Binary64.norm, Binary64.squaredNorm_zero d h0, hsqrt0]

theorem Binary64.pose_sum_self [LinearOrderedField α] (d : DoubleOps α) (h0 : d.fl 0 = 0)
    (hsqrt0 : d.sqrt 0 = 0) (pose : ArmPose α) :
    Binary64.pose_sum d pose pose 0 = 0 := by
  simp only [Binary64.pose_sum, Binary64.norm_of_sub_self d h0 hsqrt0, abs_zero, mul_zero, h0,
    add_zero]

theorem Binary64.trace_product_exact [LinearOrderedField α] (d : DoubleOps α)
    (hfl : ∀ x, d.fl x = x) (A B : Matrix (Fin 3) (Fin 3) α) :
    Binary64.trace_product d A B = (A * B.transpose).trace := by
  simp only [Binary64.trace_product, Binary64.diag_product, hfl, Matrix.trace_fin_three,
    Matrix.mul_apply, Fin.sum_univ_three, Matrix.transpose_apply]

theorem Binary64.acos_argument_exact [LinearOrderedField α] (d : DoubleOps α)
    (hfl : ∀ x, d.fl x = x) (A B : Matrix (Fin 3) (Fin 3) α) :
    Binary64.acos_argument d A B = ((A * B.transpose).trace - 1) / 2 := by
  simp only [Binary64.acos_argument, Binary64.trace_product_exact d hfl, hfl]

theorem Binary64.foldl_exact [LinearOrderedField α] (l : List α) (s : α) :
    l.foldl (fun s y => s + y * y) s = s + (l.map fun y => y * y).sum := by
  induction l generalizing s with
  | nil => simp
  | cons y rest ih =>
    simp only [List.foldl_cons, List.map_cons, List.sum_cons]
    rw [ih]
    ring

theorem Binary64.squaredNorm_exact [LinearOrderedField α] (d : DoubleOps α)
    (hfl : ∀ x, d.fl x = x) {n : Nat} (v : Fin n → α) :
    Binary64.squaredNorm d v = Eigen.squaredNorm v := by
  have hsum : Eigen.squaredNorm v = ((List.ofFn v).map fun y => y * y).sum := by
    rw [Eigen.squaredNorm, List.map_ofFn, List.sum_ofFn]
    rfl
  rw [hsum]
  unfold Binary64.squaredNorm
  cases List.ofFn v with
  | nil => simp
  | cons x rest =>
    simp only [hfl, List.map_cons, List.sum_cons]
    exact Binary64.foldl_exact rest (x * x)

/-- With a rounding that changes nothing, the double model of `compute_cost`
returns NaN when forward kinematics succeeds and the argument of `acos` lies
outside `[-1, 1]`, and otherwise what the exact model returns. -/
theorem double_cost_exact [LinearOrderedField α] (d : DoubleOps α)
    (hfl : ∀ x, d.fl x = x) (first_iter : Bool) (fk_solver : ChainFkSolverPos_recursive α)
    (q : Fin 6 → α) (nw ne ns : Nat) (side : Bool) (fdata : my_constraint_struct α) :
    (fk_succeeds fk_solver q nw ne ns →
      ((((arm_target fdata side).wrist_ori
          * (robot_pose fk_solver q nw ne ns).wrist_ori.transpose).trace - 1) / 2 < -1
        ∨ 1 < (((arm_target fdata side).wrist_ori
          * (robot_pose fk_solver q nw ne ns).wrist_ori.transpose).trace - 1) / 2) →
      Binary64.compute_cost d first_iter fk_solver q nw ne ns side fdata = none)
    ∧ (¬ (fk_succeeds fk_solver q nw ne ns
        ∧ ((((arm_target fdata side).wrist_ori
            * (robot_pose fk_solver q nw ne ns).wrist_ori.transpose).trace - 1) / 2 < -1
          ∨ 1 < (((arm_target fdata side).wrist_ori
            * (robot_pose fk_solver q nw ne ns).wrist_ori.transpose).trace - 1) / 2)) →
      Binary64.compute_cost d first_iter fk_solver q nw ne ns side fdata
        = some (compute_cost (⟨d.sqrt, d.acos⟩ : MathOps α) first_iter fk_solver q nw ne ns
            side fdata).cost) := by
  by_cases hfk : fk_succeeds fk_solver q nw ne ns
  · rw [Binary64.cost_of_fk_ok d first_iter fk_solver q nw ne ns side fdata hfk,
      compute_cost_of_fk_ok _ first_iter fk_solver q nw ne ns side fdata hfk,
      Binary64.acos_argument_exact d hfl]
    have hsub : ∀ {n : Nat} (a b : Fin n → α), Binary64.sub d a b = fun i => a i - b i := by
      intro n a b
      funext i
      simp [Binary64.sub, hfl]
    have hnorm : ∀ {n : Nat} (v : Fin n → α),
        Binary64.norm d v = Eigen.norm (⟨d.sqrt, d.acos⟩ : MathOps α) v := by
      intro n v
      simp [Binary64.norm, Eigen.norm, Binary64.squaredNorm_exact d hfl]
    have hnz : ∀ {n : Nat} (v : Fin n → α),
        Binary64.normalized d v = Eigen.normalized (⟨d.sqrt, d.acos⟩ : MathOps α) v := by
      intro n v
      simp [Binary64.normalized, Eigen.normalized, Binary64.squaredNorm_exact d hfl, hfl]
    constructor
    · intro _ hA
      rw [if_pos hA]
    · intro hA
      rw [if_neg (fun h => hA ⟨hfk, h⟩)]
      congr 1
      cases first_iter <;>
        simp only [Binary64.with_continuity, Binary64.pose_sum, Binary64.dir_se,
          Binary64.dir_ew, hsub, hnorm, hnz, hfl, spec_pose_cost, spec_continuity, dir_se,
          dir_ew, if_true, if_false, add_zero, Bool.false_eq_true]
  · rw [Binary64.cost_of_fk_fail d first_iter fk_solver q nw ne ns side fdata hfk,
      compute_cost_of_fk_fail _ first_iter fk_solver q nw ne ns side fdata hfk]
    exact ⟨fun h => absurd h hfk, fun _ => rfl⟩

theorem round_half_even_of_near (s : ℚ) (k : ℤ) (h : |s - k| < 1 / 2) :
    round_half_even s = k := by
  rw [abs_lt] at h
  obtain ⟨h1, h2⟩ := h
  unfold round_half_even
  by_cases hk : (k : ℚ) ≤ s
  · have hf : ⌊s⌋ = k := by
      rw [Int.floor_eq_iff]
      constructor
      · exact hk
      · linarith
    rw [hf, if_pos (by linarith)]
  · have hf : ⌊s⌋ = k - 1 := by
      rw [Int.floor_eq_iff]
      push_cast
      constructor <;> linarith
    have hk' : s < k := not_le.mp hk
    rw [hf]
    push_cast
    rw [if_neg (by linarith), if_pos (by linarith)]
    ring

theorem round_half_even_intCast (k : ℤ) : round_half_even (k : ℚ) = k :=
  round_half_even_of_near _ k (by simp)

theorem compute_cost_congr [LinearOrderedField α] (m : MathOps α) (first_iter : Bool)
    (fk_solver : ChainFkSolverPos_recursive α) (q : Fin 6 → α)
    (nw ne ns : Nat) (side : Bool) (fd fd' : my_constraint_struct α)
    (ht : arm_target fd side = arm_target fd' side)
    (hq : arm_q_prev fd side = arm_q_prev fd' side) :
    compute_cost m first_iter fk_solver q nw ne ns side fd
      = compute_cost m first_iter fk_solver q nw ne ns side fd' := by
  by_cases hfk : fk_succeeds fk_solver q nw ne ns
  · rw [compute_cost_of_fk_ok m first_iter fk_solver q _ _ _ side fd hfk,
      compute_cost_of_fk_ok m first_iter fk_solver q _ _ _ side fd' hfk, ht, hq]
  · rw [compute_cost_of_fk_fail m first_iter fk_solver q _ _ _ side fd hfk,
      compute_cost_of_fk_fail m first_iter fk_solver q _ _ _ side fd' hfk]

theorem arm_pose_congr (fd fd' : my_constraint_struct α) (side : Bool)
    (hq : fd.q_prev = fd'.q_prev)
    (h1 : fd.l_shoulder_pos_goal = fd'.l_shoulder_pos_goal)
    (h2 : fd.l_elbow_pos_goal = fd'.l_elbow_pos_goal)
    (h3 : fd.l_wrist_pos_goal = fd'.l_wrist_pos_goal)
    (h4 : fd.l_wrist_ori_goal = fd'.l_wrist_ori_goal)
    (h5 : fd.r_shoulder_pos_goal = fd'.r_shoulder_pos_goal)
    (h6 : fd.r_elbow_pos_goal = fd'.r_elbow_pos_goal)
    (h7 : fd.r_wrist_pos_goal = fd'.r_wrist_pos_goal)
    (h8 : fd.r_wrist_ori_goal = fd'.r_wrist_ori_goal) :
    arm_target fd side = arm_target fd' side ∧ arm_q_prev fd side = arm_q_prev fd' side := by
  unfold arm_target arm_q_prev
  rw [hq, h1, h2, h3, h4, h5, h6, h7, h8]
  exact ⟨rfl, rfl⟩

theorem setup_left_kdl_target (c : KdlChain α) (fd : my_constraint_struct α) (side : Bool) :
    arm_target (setup_left_kdl c fd).2 side = arm_target fd side
    ∧ arm_q_prev (setup_left_kdl c fd).2 side = arm_q_prev fd side := by
  apply arm_pose_congr <;> simp only [setup_left_kdl] <;> split_ifs <;> simp

theorem setup_right_kdl_target (c : KdlChain α) (fd : my_constraint_struct α) (side : Bool) :
    arm_target (setup_right_kdl c fd).2 side = arm_target fd side
    ∧ arm_q_prev (setup_right_kdl c fd).2 side = arm_q_prev fd side := by
  apply arm_pose_congr <;> simp only [setup_right_kdl] <;> split_ifs <;> simp

theorem setup_right_kdl_left_segs (c : KdlChain α) (fd : my_constraint_struct α) :
    (setup_right_kdl c fd).2.l_num_wrist_seg = fd.l_num_wrist_seg
    ∧ (setup_right_kdl c fd).2.l_num_elbow_seg = fd.l_num_elbow_seg
    ∧ (setup_right_kdl c fd).2.l_num_shoulder_seg = fd.l_num_shoulder_seg := by
  by_cases h : fd.r_num_wrist_seg = 0 ∨ fd.r_num_elbow_seg = 0 ∨ fd.r_num_shoulder_seg = 0
  · simp [setup_right_kdl, h]
  · simp [setup_right_kdl, h]

theorem setup_left_kdl_right_segs (c c' : KdlChain α) (fd : my_constraint_struct α) :
    (setup_right_kdl c (setup_left_kdl c' fd).2).2.r_num_wrist_seg
        = (setup_right_kdl c fd).2.r_num_wrist_seg
    ∧ (setup_right_kdl c (setup_left_kdl c' fd).2).2.r_num_elbow_seg
        = (setup_right_kdl c fd).2.r_num_elbow_seg
    ∧ (setup_right_kdl c (setup_left_kdl c' fd).2).2.r_num_shoulder_seg
        = (setup_right_kdl c fd).2.r_num_shoulder_seg := by
  by_cases h : fd.l_num_wrist_seg = 0 ∨ fd.l_num_elbow_seg = 0 ∨ fd.l_num_shoulder_seg = 0
  · by_cases h' : fd.r_num_wrist_seg = 0 ∨ fd.r_num_elbow_seg = 0 ∨ fd.r_num_shoulder_seg = 0
    · simp [setup_right_kdl, setup_left_kdl, h, h']
    · simp [setup_right_kdl, setup_left_kdl, h, h']
  · simp [setup_left_kdl, h]

theorem myfunc_value [LinearOrderedField α] (m : MathOps α) (first_iter : Bool)
    (left_chain right_chain : KdlChain α) (count : Int) (x : Fin 12 → α) (grad : List α)
    (f_data : my_constraint_struct α) :
    (myfunc m first_iter left_chain right_chain count x grad f_data).value
      = left_arm_cost m first_iter left_chain x f_data
        + right_arm_cost m first_iter right_chain x f_data := by
  simp only [myfunc, two_arm_cost, left_arm_cost, right_arm_cost]
  have hl := setup_right_kdl_left_segs right_chain (setup_left_kdl left_chain f_data).2
  have hr := setup_left_kdl_right_segs right_chain left_chain f_data
  rw [hl.1, hl.2.1, hl.2.2, hr.1, hr.2.1, hr.2.2]
  congr 2
  · apply compute_cost_congr
    · rw [(setup_right_kdl_target _ _ _).1, (setup_left_kdl_target _ _ _).1]
    · rw [(setup_right_kdl_target _ _ _).2, (setup_left_kdl_target _ _ _).2]
  · apply compute_cost_congr
    · rw [(setup_right_kdl_target _ _ _).1, (setup_left_kdl_target _ _ _).1]
    · rw [(setup_right_kdl_target _ _ _).2, (setup_left_kdl_target _ _ _).2]

theorem finRange_six : List.finRange 6 = [0, 1, 2, 3, 4, 5] := by
  decide

theorem grad_loops (g0 : List α) (hlen : g0.length = 12) (f h : Fin 6 → α) :
    (List.finRange 6).foldl (fun g j => g.set (6 + j.val) (h j))
        ((List.finRange 6).foldl (fun g i => g.set i.val (f i)) g0)
      = [f 0, f 1, f 2, f 3, f 4, f 5, h 0, h 1, h 2, h 3, h 4, h 5] := by
  rw [finRange_six]
  match g0, hlen with
  | [a0, a1, a2, a3, a4, a5, a6, a7, a8, a9, a10, a11], _ => rfl

theorem left_block_eq (x : Fin 12 → α) :
    (![x 0, x 1, x 2, x 3, x 4, x 5] : Fin 6 → α) = fun j => x (Fin.castAdd 6 j) := by
  funext j
  fin_cases j <;> rfl

theorem right_block_eq (x : Fin 12 → α) :
    (![x 6, x 7, x 8, x 9, x 10, x 11] : Fin 6 → α) = fun j => x (Fin.natAdd 6 j) := by
  funext j
  fin_cases j <;> rfl

theorem update_left_block (x : Fin 12 → α) (i : Fin 6) (v : α) :
    (fun j : Fin 6 => Function.update x (Fin.castAdd 6 i) v (Fin.castAdd 6 j))
      = Function.update (fun j : Fin 6 => x (Fin.castAdd 6 j)) i v
    ∧ (fun j : Fin 6 => Function.update x (Fin.castAdd 6 i) v (Fin.natAdd 6 j))
      = fun j : Fin 6 => x (Fin.natAdd 6 j) := by
  constructor
  · funext j
    by_cases hj : j = i
    · subst hj
      simp
    · have hne : Fin.castAdd 6 j ≠ Fin.castAdd 6 i := by
        intro h
        exact hj (Fin.castAdd_injective 6 6 h)
      simp [Function.update_noteq hne, Function.update_noteq hj]
  · funext j
    have hne : Fin.natAdd 6 j ≠ Fin.castAdd 6 i := by
      intro h
      have := congrArg Fin.val h
      simp at this
      omega
    simp [Function.update_noteq hne]

theorem update_right_block (x : Fin 12 → α) (i : Fin 6) (v : α) :
    (fun j : Fin 6 => Function.update x (Fin.natAdd 6 i) v (Fin.castAdd 6 j))
      = (fun j : Fin 6 => x (Fin.castAdd 6 j))
    ∧ (fun j : Fin 6 => Function.update x (Fin.natAdd 6 i) v (Fin.natAdd 6 j))
      = Function.update (fun j : Fin 6 => x (Fin.natAdd 6 j)) i v := by
  constructor
  · funext j
    have hne : Fin.castAdd 6 j ≠ Fin.natAdd 6 i := by
      intro h
      have := congrArg Fin.val h
      simp at this
      omega
    simp [Function.update_noteq hne]
  · funext j
    by_cases hj : j = i
    · subst hj
      simp
    · have hne : Fin.natAdd 6 j ≠ Fin.natAdd 6 i := by
        intro h
        have := congrArg Fin.val h
        simp at this
        exact hj (Fin.ext this)
      simp [Function.update_noteq hne, Function.update_noteq hj]

theorem myfunc_value_blocks [LinearOrderedField α] (m : MathOps α) (first_iter : Bool)
    (left_chain right_chain : KdlChain α) (count : Int) (x : Fin 12 → α) (grad : List α)
    (f_data : my_constraint_struct α) :
    (myfunc m first_iter left_chain right_chain count x grad f_data).value
      = two_arm_cost m first_iter (setup_left_kdl left_chain f_data).1
          (setup_right_kdl right_chain (setup_left_kdl left_chain f_data).2).1
          (fun j => x (Fin.castAdd 6 j)) (fun j => x (Fin.natAdd 6 j))
          (setup_right_kdl right_chain (setup_left_kdl left_chain f_data).2).2 := by
  simp only [myfunc]
  rw [left_block_eq, right_block_eq]

theorem myfunc_grad_list [LinearOrderedField α] (m : MathOps α) (first_iter : Bool)
    (left_chain right_chain : KdlChain α) (count : Int) (x : Fin 12 → α) (grad : List α)
    (f_data : my_constraint_struct α) (hlen : grad.length = 12)
    (dl dr : Fin 6 → α)
    (hdl : dl = fun i =>
      (two_arm_cost m first_iter (setup_left_kdl left_chain f_data).1
          (setup_right_kdl right_chain (setup_left_kdl left_chain f_data).2).1
          (Function.update (fun j => x (Fin.castAdd 6 j)) i (x (Fin.castAdd 6 i) + 1 / 1000))
          (fun j => x (Fin.natAdd 6 j))
          (setup_right_kdl right_chain (setup_left_kdl left_chain f_data).2).2
        - two_arm_cost m first_iter (setup_left_kdl left_chain f_data).1
          (setup_right_kdl right_chain (setup_left_kdl left_chain f_data).2).1
          (Function.update (fun j => x (Fin.castAdd 6 j)) i (x (Fin.castAdd 6 i) - 1 / 1000))
          (fun j => x (Fin.natAdd 6 j))
          (setup_right_kdl right_chain (setup_left_kdl left_chain f_data).2).2)
        / (2 * (1 / 1000)))
    (hdr : dr = fun i =>
      (two_arm_cost m first_iter (setup_left_kdl left_chain f_data).1
          (setup_right_kdl right_chain (setup_left_kdl left_chain f_data).2).1
          (fun j => x (Fin.castAdd 6 j))
          (Function.update (fun j => x (Fin.natAdd 6 j)) i (x (Fin.natAdd 6 i) + 1 / 1000))
          (setup_right_kdl right_chain (setup_left_kdl left_chain f_data).2).2
        - two_arm_cost m first_iter (setup_left_kdl left_chain f_data).1
          (setup_right_kdl right_chain (setup_left_kdl left_chain f_data).2).1
          (fun j => x (Fin.castAdd 6 j))
          (Function.update (fun j => x (Fin.natAdd 6 j)) i (x (Fin.natAdd 6 i) - 1 / 1000))
          (setup_right_kdl right_chain (setup_left_kdl left_chain f_data).2).2)
        / (2 * (1 / 1000))) :
    (myfunc m first_iter left_chain right_chain count x grad f_data).grad
      = [dl 0, dl 1, dl 2, dl 3, dl 4, dl 5, dr 0, dr 1, dr 2, dr 3, dr 4, dr 5] := by
  have hne : grad.isEmpty = false := by
    cases grad with
    | nil => simp at hlen
    | cons a t => rfl
  simp only [myfunc, hne, Bool.not_false, if_true]
  rw [left_block_eq, right_block_eq, ← grad_loops grad hlen dl dr, hdl, hdr]

theorem setup_left_kdl_sample [LinearOrderedField α] (fk : ChainFkSolverPos_recursive α) :
    setup_left_kdl (sample_left_chain fk) (sample_fdata : my_constraint_struct α)
      = (fk, sample_fdata) := by
  simp [setup_left_kdl, sample_left_chain, sample_fdata, find_segments, u32, u32_pred]

theorem setup_right_kdl_sample [LinearOrderedField α] (fk : ChainFkSolverPos_recursive α) :
    setup_right_kdl (sample_right_chain fk) (sample_fdata : my_constraint_struct α)
      = (fk, sample_fdata) := by
  simp [setup_right_kdl, sample_right_chain, sample_fdata, find_segments, u32, u32_pred]

theorem short_fk_fails [LinearOrderedField α] (q : Fin 6 → α) :
    ¬ fk_succeeds (short_fk : ChainFkSolverPos_recursive α) q 7 3 0 := by
  simp [fk_succeeds, short_fk, u32]

theorem myfunc_grad_entry [LinearOrderedField α] (m : MathOps α)
    (first_iter : Bool) (left_chain right_chain : KdlChain α) (count : Int)
    (x : Fin 12 → α) (grad : List α) (f_data : my_constraint_struct α)
    (hlen : grad.length = 12) (i : Fin 12) :
    (myfunc m first_iter left_chain right_chain count x grad f_data).grad[i.val]?
      = some (central_difference
          (fun x' => (myfunc m first_iter left_chain right_chain count x' [] f_data).value)
          x i) := by
  rw [myfunc_grad_list m first_iter left_chain right_chain count x grad f_data hlen _ _ rfl rfl]
  unfold central_difference
  simp only [myfunc_value_blocks]
  by_cases hi : i.val < 6
  · obtain ⟨k, rfl⟩ : ∃ k : Fin 6, i = Fin.castAdd 6 k := ⟨⟨i.val, hi⟩, rfl⟩
    rw [(update_left_block x k _).1, (update_left_block x k _).2,
      (update_left_block x k _).1, (update_left_block x k _).2]
    fin_cases k <;> rfl
  · obtain ⟨k, rfl⟩ : ∃ k : Fin 6, i = Fin.natAdd 6 k :=
      ⟨⟨i.val - 6, by omega⟩, by ext; simp; omega⟩
    rw [(update_right_block x k _).1, (update_right_block x k _).2,
      (update_right_block x k _).1, (update_right_block x k _).2]
    fin_cases k <;> rfl

/-- The two-arm cost at the sample data with `sqrt` and `acos` the identity:
10 per arm from the orientation term (`acos 1` is 1 here) and 5 times the
squared distance to the previous solution, which is 0. -/
theorem sample_two_arm_cost (x : Fin 12 → ℚ) :
    left_arm_cost (⟨fun x => x, fun x => x⟩ : MathOps ℚ) false (sample_left_chain sample_fk) x
        sample_fdata
      + right_arm_cost (⟨fun x => x, fun x => x⟩ : MathOps ℚ) false
        (sample_right_chain sample_fk) x sample_fdata
      = 20 + 5 * (x 0 * x 0 + x 1 * x 1 + x 2 * x 2 + x 3 * x 3 + x 4 * x 4 + x 5 * x 5
          + x 6 * x 6 + x 7 * x 7 + x 8 * x 8 + x 9 * x 9 + x 10 * x 10 + x 11 * x 11) := by
  unfold left_arm_cost right_arm_cost
  rw [setup_left_kdl_sample, setup_right_kdl_sample]
  rw [compute_cost_of_fk_ok _ _ _ _ _ _ _ _ _ (sample_fk_succeeds _ _ _ _),
    compute_cost_of_fk_ok _ _ _ _ _ _ _ _ _ (sample_fk_succeeds _ _ _ _)]
  have hM : Eigen.Map_Matrix3d_RowMajor (![1, 0, 0, 0, 1, 0, 0, 0, 1] : Fin 9 → ℚ) = 1 :=
    Map_Matrix3d_RowMajor_identity
  simp [spec_pose_cost, spec_continuity, arm_target, robot_pose, sample_fk, sample_fdata,
    arm_q_prev, dir_se, dir_ew, Eigen.norm, Eigen.normalized, Eigen.squaredNorm, hM,
    Fin.sum_univ_succ, Matrix.trace_fin_three]
  ring_nf
  simp only [abs_one, one_mul]

theorem right_arm_cost_update_left [LinearOrderedField α] (m : MathOps α) (first_iter : Bool)
    (right_chain : KdlChain α) (x : Fin 12 → α) (f_data : my_constraint_struct α)
    (k : Fin 6) (v : α) :
    right_arm_cost m first_iter right_chain (Function.update x (Fin.castAdd 6 k) v) f_data
      = right_arm_cost m first_iter right_chain x f_data := by
  unfold right_arm_cost
  rw [right_block_eq, right_block_eq, (update_left_block x k v).2]

theorem left_arm_cost_update_right [LinearOrderedField α] (m : MathOps α) (first_iter : Bool)
    (left_chain : KdlChain α) (x : Fin 12 → α) (f_data : my_constraint_struct α)
    (k : Fin 6) (v : α) :
    left_arm_cost m first_iter left_chain (Function.update x (Fin.natAdd 6 k) v) f_data
      = left_arm_cost m first_iter left_chain x f_data := by
  unfold left_arm_cost
  rw [left_block_eq, left_block_eq, (update_right_block x k v).1]

theorem compute_cost_robot_shoulder [LinearOrderedField α] (m : MathOps α) (first_iter : Bool)
    (fk_solver : ChainFkSolverPos_recursive α) (q : Fin 6 → α)
    (nw ne ns : Nat) (side : Bool) (fd : my_constraint_struct α) (a b : Fin 3 → α) :
    compute_cost m first_iter fk_solver q nw ne ns side
        { fd with l_robot_shoulder_pos := a, r_robot_shoulder_pos := b }
      = compute_cost m first_iter fk_solver q nw ne ns side fd := by
  apply compute_cost_congr
  · cases side <;> rfl
  · rfl

theorem setup_left_kdl_robot_shoulder (c : KdlChain α) (fd : my_constraint_struct α)
    (a b : Fin 3 → α) :
    setup_left_kdl c { fd with l_robot_shoulder_pos := a, r_robot_shoulder_pos := b }
      = ((setup_left_kdl c fd).1,
          { (setup_left_kdl c fd).2 with
            l_robot_shoulder_pos := a, r_robot_shoulder_pos := b }) := by
  by_cases h : fd.l_num_wrist_seg = 0 ∨ fd.l_num_elbow_seg = 0 ∨ fd.l_num_shoulder_seg = 0
  · simp [setup_left_kdl, h]
  · simp [setup_left_kdl, h]

theorem setup_right_kdl_robot_shoulder (c : KdlChain α) (fd : my_constraint_struct α)
    (a b : Fin 3 → α) :
    setup_right_kdl c { fd with l_robot_shoulder_pos := a, r_robot_shoulder_pos := b }
      = ((setup_right_kdl c fd).1,
          { (setup_right_kdl c fd).2 with
            l_robot_shoulder_pos := a, r_robot_shoulder_pos := b }) := by
  by_cases h : fd.r_num_wrist_seg = 0 ∨ fd.r_num_elbow_seg = 0 ∨ fd.r_num_shoulder_seg = 0
  · simp [setup_right_kdl, h]
  · simp [setup_right_kdl, h]

theorem two_arm_cost_robot_shoulder [LinearOrderedField α] (m : MathOps α) (first_iter : Bool)
    (ls rs : ChainFkSolverPos_recursive α) (ql qr : Fin 6 → α)
    (fd : my_constraint_struct α) (a b : Fin 3 → α) :
    two_arm_cost m first_iter ls rs ql qr
        { fd with l_robot_shoulder_pos := a, r_robot_shoulder_pos := b }
      = two_arm_cost m first_iter ls rs ql qr fd := by
  simp only [two_arm_cost, compute_cost_robot_shoulder]

theorem myfunc_robot_shoulder [LinearOrderedField α] (m : MathOps α) (first_iter : Bool)
    (left_chain right_chain : KdlChain α) (count : Int) (x : Fin 12 → α) (grad : List α)
    (f_data : my_constraint_struct α) (a b : Fin 3 → α) :
    (myfunc m first_iter left_chain right_chain count x grad
        { f_data with l_robot_shoulder_pos := a, r_robot_shoulder_pos := b }).value
      = (myfunc m first_iter left_chain right_chain count x grad f_data).value
    ∧ (myfunc m first_iter left_chain right_chain count x grad
        { f_data with l_robot_shoulder_pos := a, r_robot_shoulder_pos := b }).grad
      = (myfunc m first_iter left_chain right_chain count x grad f_data).grad := by
  simp only [myfunc, setup_left_kdl_robot_shoulder, setup_right_kdl_robot_shoulder,
    two_arm_cost_robot_shoulder]
  exact ⟨trivial, trivial⟩

theorem vector_data_of_le (n : Nat) (v : List α) (h : n ≤ v.length) :
    ∃ d, vector_data n v = some d := by
  unfold vector_data
  rw [dif_pos h]
  exact ⟨_, rfl⟩

theorem vector_data_ofFn (f : Fin 12 → α) : vector_data 12 (List.ofFn f) = some f := by
  unfold vector_data
  have h : 12 ≤ (List.ofFn f).length := by simp
  rw [dif_pos h]
  congr 1
  funext i
  rw [List.get_ofFn]
  rfl

theorem table_row (table : List (List α)) (N w it : Nat) (hN : table.length = N)
    (hw : ∀ row ∈ table, row.length = w) (hit : it < N) :
    ∃ row, table[it]? = some row ∧ row.length = w := by
  have h : it < table.length := by omega
  exact ⟨table[it], List.getElem?_eq_getElem h, hw _ (List.getElem_mem h)⟩

theorem frame_goals_some [LinearOrderedField α] (t : Tables α) (N it : Nat)
    (hwf : tables_well_formed t N) (hit : it < N) (cd : my_constraint_struct α) :
    ∃ cd', frame_goals t it cd = some cd' := by
  obtain ⟨r1, h1, w1⟩ := table_row _ N 3 it hwf.l_wrist_pos_rows hwf.l_wrist_pos_width hit
  obtain ⟨r2, h2, w2⟩ := table_row _ N 9 it hwf.l_wrist_ori_rows hwf.l_wrist_ori_width hit
  obtain ⟨r3, h3, w3⟩ := table_row _ N 3 it hwf.l_elbow_pos_rows hwf.l_elbow_pos_width hit
  obtain ⟨r4, h4, w4⟩ := table_row _ N 3 it hwf.l_shoulder_pos_rows
    hwf.l_shoulder_pos_width hit
  obtain ⟨r5, h5, w5⟩ := table_row _ N 3 it hwf.r_wrist_pos_rows hwf.r_wrist_pos_width hit
  obtain ⟨r6, h6, w6⟩ := table_row _ N 9 it hwf.r_wrist_ori_rows hwf.r_wrist_ori_width hit
  obtain ⟨r7, h7, w7⟩ := table_row _ N 3 it hwf.r_elbow_pos_rows hwf.r_elbow_pos_width hit
  obtain ⟨r8, h8, w8⟩ := table_row _ N 3 it hwf.r_shoulder_pos_rows
    hwf.r_shoulder_pos_width hit
  obtain ⟨d1, e1⟩ := vector_data_of_le 3 r1 (by omega)
  obtain ⟨d2, e2⟩ := vector_data_of_le 9 r2 (by omega)
  obtain ⟨d3, e3⟩ := vector_data_of_le 3 r3 (by omega)
  obtain ⟨d4, e4⟩ := vector_data_of_le 3 r4 (by omega)
  obtain ⟨d5, e5⟩ := vector_data_of_le 3 r5 (by omega)
  obtain ⟨d6, e6⟩ := vector_data_of_le 9 r6 (by omega)
  obtain ⟨d7, e7⟩ := vector_data_of_le 3 r7 (by omega)
  obtain ⟨d8, e8⟩ := vector_data_of_le 3 r8 (by omega)
  have hrows : frame_rows t it = some ⟨r1, r2, r3, r4, r5, r6, r7, r8⟩ := by
    simp [frame_rows, h1, h2, h3, h4, h5, h6, h7, h8]
  have hmap : ∃ goals, map_rows (⟨r1, r2, r3, r4, r5, r6, r7, r8⟩ : FrameRows α)
      = some goals := by
    simp [map_rows, e1, e2, e3, e4, e5, e6, e7, e8]
  obtain ⟨goals, hg⟩ := hmap
  exact ⟨store_goals goals cd, by simp [frame_goals, hrows, hg]⟩

theorem u32_pred_of_pos (k : Nat) (hk : k ≠ 0) : u32_pred k = k - 1 := by
  simp [u32_pred, hk]

theorem initial_guess_some [LinearOrderedField α] (N k : Nat) (s : DriverState α)
    (hinv : DriverInv N k s) (hk : k < N) :
    ∃ x0, initial_guess k s = some x0 ∧ x0.length = 12
      ∧ (k = 0 → x0 = List.replicate 12 0)
      ∧ (k ≠ 0 → s.q_results[k - 1]? = some x0) := by
  by_cases h0 : k = 0
  · refine ⟨s.x, ?_, hinv.x_len, fun _ => hinv.x_zero h0, fun h => absurd h0 h⟩
    simp [initial_guess, hinv.first, h0]
  · have hlt : k - 1 < s.q_results.length := by
      rw [hinv.q_len]
      omega
    refine ⟨s.q_results[k - 1], ?_, hinv.rows _ (List.getElem_mem hlt), fun h => absurd h h0,
      fun _ => List.getElem?_eq_getElem hlt⟩
    simp [initial_guess, hinv.first, h0, u32_pred_of_pos k h0, List.getElem?_eq_getElem hlt]

theorem optimize_and_record_some
    (optimize : my_constraint_struct α → Bool → (Fin 12 → α) → OptimizeResult α)
    (it : Nat) (s : DriverState α) (cd : my_constraint_struct α) (x0 : List α)
    (hx0 : x0.length = 12) (hit : it < s.q_results.length) :
    ∃ s' r, optimize_and_record optimize it s cd x0 = some s'
      ∧ (∃ xd, r = optimize cd s.first_iter xd)
      ∧ s'.x = List.ofFn r.x
      ∧ s'.q_results = s.q_results.set it (List.ofFn r.x)
      ∧ s'.constraint_data.q_prev = r.x
      ∧ s'.first_iter = false
      ∧ s'.stdout = s.stdout ++ [termination_message r.opt_result]
      ∧ s'.guesses = s.guesses ++ [x0]
      ∧ s'.returned = s.returned ++ [r] := by
  obtain ⟨xd, hxd⟩ := vector_data_of_le 12 x0 (by omega)
  refine ⟨{ x := List.ofFn (optimize cd s.first_iter xd).x
            q_results := s.q_results.set it (List.ofFn (optimize cd s.first_iter xd).x)
            constraint_data := { cd with q_prev := (optimize cd s.first_iter xd).x }
            first_iter := false
            stdout := s.stdout
              ++ [termination_message (optimize cd s.first_iter xd).opt_result]
            guesses := s.guesses ++ [x0]
            returned := s.returned ++ [optimize cd s.first_iter xd] },
    optimize cd s.first_iter xd, ?_, ⟨xd, rfl⟩, rfl, rfl, rfl, rfl, rfl, rfl, rfl⟩
  simp only [optimize_and_record, hx0, hxd, hit, vector_data_ofFn, if_true]

theorem frame_body_step [LinearOrderedField α]
    (optimize : my_constraint_struct α → Bool → (Fin 12 → α) → OptimizeResult α)
    (t : Tables α) (N k : Nat) (s : DriverState α) (hwf : tables_well_formed t N)
    (hinv : DriverInv N k s) (hk : k < N) :
    ∃ s', frame_body optimize t k s = some s' ∧ DriverInv N (k + 1) s'
      ∧ (∀ j, j < k → s'.q_results[j]? = s.q_results[j]?)
      ∧ (∃ cd xd, s'.returned = s.returned ++ [optimize cd (decide (k = 0)) xd])
      ∧ (∃ r, s'.stdout = s.stdout ++ [termination_message r]) := by
  obtain ⟨cd, hcd⟩ := frame_goals_some t N k hwf hk s.constraint_data
  obtain ⟨x0, hx0, hx0len, hx0zero, hx0prev⟩ := initial_guess_some N k s hinv hk
  have hkq : k < s.q_results.length := by
    rw [hinv.q_len]
    exact hk
  obtain ⟨s', r, hrec, ⟨xd, hr⟩, ex, eq, ep, ef, eo, eg, er⟩ :=
    optimize_and_record_some optimize k s cd x0 hx0len hkq
  have hrl : s.returned.length = k := hinv.returned_len
  have hgl : s.guesses.length = k := hinv.guesses_len
  refine ⟨s', by simp only [frame_body, hcd, hx0]; exact hrec, ?_, ?_, ?_, ?_⟩
  · refine ⟨?_, ?_, ?_, ?_, ?_, ?_, ?_, ?_, ?_, ?_, ?_⟩
    · rw [eq, List.length_set, hinv.q_len]
    · intro row hrow
      rw [eq] at hrow
      rcases List.mem_or_eq_of_mem_set hrow with h | h
      · exact hinv.rows row h
      · rw [h, List.length_ofFn]
    · rw [ex, List.length_ofFn]
    · rw [ef]
      simp
    · rw [eg, List.length_append, hgl]
      rfl
    · rw [er, List.length_append, hrl]
      rfl
    · intro j r' hj
      rw [er] at hj
      rw [eq]
      by_cases hjk : j < k
      · rw [List.getElem?_append_left (by omega)] at hj
        rw [List.getElem?_set_ne (by omega)]
        exact hinv.recorded j r' hj
      · have hjlen : j < (s.returned ++ [r]).length := by
          by_contra hcon
          rw [List.getElem?_eq_none (by omega)] at hj
          exact absurd hj (by simp)
        have hjeq : j = k := by
          rw [List.length_append, hrl] at hjlen
          simp at hjlen
          omega
        subst hjeq
        rw [List.getElem?_append_right (by omega)] at hj
        simp [hrl] at hj
        subst hj
        rw [List.getElem?_set_self hkq]
    · intro r' hr'
      simp only [Nat.add_sub_cancel] at hr'
      rw [er, List.getElem?_append_right (by omega)] at hr'
      simp [hrl] at hr'
      subst hr'
      exact ⟨ep, ex⟩
    · intro h
      omega
    · intro g hg
      rw [eg] at hg
      by_cases h0 : k = 0
      · have hnil : s.guesses = [] := List.length_eq_zero.mp (by omega)
        simp [hnil] at hg
        rw [← hg]
        exact hx0zero h0
      · rw [List.getElem?_append_left (by omega)] at hg
        exact hinv.guess_zero g hg
    · intro j hj
      rw [eq, eg, List.getElem?_set_ne (by omega)]
      by_cases hjk : j + 1 < k
      · rw [List.getElem?_append_left (by omega)]
        exact hinv.guess_succ j hjk
      · have hjeq : j + 1 = k := by omega
        rw [List.getElem?_append_right (by omega)]
        have h1 := hx0prev (by omega)
        rw [← hjeq] at h1
        simp only [Nat.add_sub_cancel] at h1
        rw [h1]
        simp [hgl, hjeq]
  · intro j hj
    rw [eq, List.getElem?_set_ne (by omega)]
  · exact ⟨cd, xd, by rw [er, hr, hinv.first]⟩
  · exact ⟨_, eo⟩

theorem initial_state_inv [LinearOrderedField α] (N : Nat) (cd : my_constraint_struct α) :
    DriverInv N 0 (initial_state N cd) := by
  refine ⟨?_, ?_, ?_, ?_, ?_, ?_, ?_, ?_, ?_, ?_, ?_⟩
  · simp [initial_state]
  · intro row hrow
    simp only [initial_state] at hrow
    rw [List.eq_of_mem_replicate hrow]
    simp
  · simp [initial_state]
  · rfl
  · rfl
  · rfl
  · intro j r hj
    simp [initial_state] at hj
  · intro r hr
    simp [initial_state] at hr
  · intro _
    rfl
  · intro g hg
    simp [initial_state] at hg
  · intro j hj
    omega

theorem frame_loop_inv [LinearOrderedField α]
    (optimize : my_constraint_struct α → Bool → (Fin 12 → α) → OptimizeResult α)
    (t : Tables α) (N : Nat) (cd : my_constraint_struct α) (hwf : tables_well_formed t N) :
    ∀ k, k ≤ N → ∃ s, frame_loop optimize t (initial_state N cd) k = some s
      ∧ DriverInv N k s
      ∧ (∀ k' s', k' ≤ k → frame_loop optimize t (initial_state N cd) k' = some s' →
          ∀ j, j < k' → s.q_results[j]? = s'.q_results[j]?)
      ∧ (1 ≤ k → ∃ cd' xd,
          s.returned[k - 1]? = some (optimize cd' (decide (k = 1)) xd)) := by
  intro k
  induction k with
  | zero =>
    intro _
    refine ⟨initial_state N cd, rfl, initial_state_inv N cd, ?_, ?_⟩
    · intro k' s' hk' _ j hj
      omega
    · intro h
      omega
  | succ k ih =>
    intro hk
    obtain ⟨s, hs, hinv, hstable, _⟩ := ih (by omega)
    obtain ⟨s', hs', hinv', hkeep, ⟨cd', xd, hret⟩, _⟩ :=
      frame_body_step optimize t N k s hwf hinv (by omega)
    refine ⟨s', by simp only [frame_loop, hs]; exact hs', hinv', ?_, ?_⟩
    · intro k' s'' hk' hs'' j hj
      by_cases hkk : k' = k + 1
      · subst hkk
        simp only [frame_loop, hs] at hs''
        rw [hs'] at hs''
        injection hs'' with hs''
        rw [hs'']
      · have hle : k' ≤ k := by omega
        rw [hkeep j (by omega)]
        exact hstable k' s'' hle hs'' j hj
    · intro _
      refine ⟨cd', xd, ?_⟩
      rw [hret, List.getElem?_append_right (by rw [hinv.returned_len]; omega)]
      simp [hinv.returned_len]

theorem copy_row_some (data_vector : List (List α)) (j : Nat) (row : List α)
    (hrow : data_vector[j]? = some row) :
    ∀ COL, COL ≤ row.length → ∃ filled, copy_row data_vector j COL = some filled := by
  intro COL
  induction COL with
  | zero =>
    intro _
    exact ⟨[], rfl⟩
  | succ COL ih =>
    intro h
    obtain ⟨filled, hf⟩ := ih (by omega)
    have hat : at2 data_vector j COL = some row[COL] := by
      simp only [at2, hrow]
      exact List.getElem?_eq_getElem (by omega)
    exact ⟨filled ++ [row[COL]], by simp only [copy_row, hf, hat]⟩

theorem copy_buffer_some (data_vector : List (List α)) (COL : Nat) :
    ∀ ROW, ROW ≤ data_vector.length → (∀ row ∈ data_vector, COL ≤ row.length) →
      ∃ data, copy_buffer data_vector COL ROW = some data := by
  intro ROW
  induction ROW with
  | zero =>
    intro _ _
    exact ⟨[], rfl⟩
  | succ ROW ih =>
    intro h hw
    obtain ⟨filled, hf⟩ := ih (by omega) hw
    have hlt : ROW < data_vector.length := by omega
    obtain ⟨row, hr⟩ := copy_row_some data_vector ROW data_vector[ROW]
      (List.getElem?_eq_getElem hlt) COL (hw _ (List.getElem_mem hlt))
    exact ⟨filled ++ [row], by simp only [copy_buffer, hf, hr]⟩

theorem write_h5_some
    (try_block : String → String → String → List (List α) → Option Thrown)
    (file_name group_name dataset_name : String) (ROW COL : Nat)
    (data_vector : List (List α)) (hROW : ROW ≤ data_vector.length)
    (hCOL : ∀ row ∈ data_vector, COL ≤ row.length) :
    ∃ data, copy_buffer data_vector COL ROW = some data
      ∧ write_h5 try_block file_name group_name dataset_name ROW COL data_vector
        = some (if try_block file_name group_name dataset_name data = some Thrown.uncaught
            then Except.error ProcessEnd.terminated else Except.ok true) := by
  obtain ⟨data, hd⟩ := copy_buffer_some data_vector COL ROW hROW hCOL
  refine ⟨data, hd, ?_⟩
  simp only [write_h5, hd]
  cases try_block file_name group_name dataset_name data with
  | none => rfl
  | some e =>
    cases e with
    | caught e => cases e <;> rfl
    | uncaught => rfl

theorem main_body_completes [LinearOrderedField α] (env : MainEnv α) (names : Names)
    (t : Tables α) (cd : my_constraint_struct α) (N : Nat) (lc rc : KdlChain α)
    (hwf : tables_well_formed t N) (hl : env.left_chain = some lc)
    (hr : env.right_chain = some rc) :
    ∃ s data1 data2, frame_loop env.optimize t
        (initial_state N (setup_right_kdl rc (setup_left_kdl lc cd).2).2) N = some s
      ∧ write_h5 env.h5_write names.out_file_name names.in_group_name "arm_traj_1" N 12
          s.q_results
        = some (if env.h5_write names.out_file_name names.in_group_name "arm_traj_1" data1
              = some Thrown.uncaught
            then Except.error ProcessEnd.terminated else Except.ok true)
      ∧ write_h5 env.h5_write names.out_file_name names.in_group_name "timestamp_1" N 1
          t.read_time_stamps
        = some (if env.h5_write names.out_file_name names.in_group_name "timestamp_1" data2
              = some Thrown.uncaught
            then Except.error ProcessEnd.terminated else Except.ok true)
      ∧ main_body env names t cd
        = some (if env.h5_write names.out_file_name names.in_group_name "arm_traj_1" data1
              = some Thrown.uncaught
            ∨ env.h5_write names.out_file_name names.in_group_name "timestamp_1" data2
              = some Thrown.uncaught
          then ⟨ProcessEnd.terminated, s.stdout, s.q_results⟩
          else ⟨ProcessEnd.exited 0, s.stdout ++ ["Joint path results successfully stored!"],
            s.q_results⟩) := by
  obtain ⟨s, hs, hinv, _, _⟩ := frame_loop_inv env.optimize t N
    (setup_right_kdl rc (setup_left_kdl lc cd).2).2 hwf N (le_refl N)
  obtain ⟨data1, _, hw1⟩ := write_h5_some env.h5_write names.out_file_name
    names.in_group_name "arm_traj_1" N 12 s.q_results (by rw [hinv.q_len])
    (fun row hrow => by rw [hinv.rows row hrow])
  obtain ⟨data2, _, hw2⟩ := write_h5_some env.h5_write names.out_file_name
    names.in_group_name "timestamp_1" N 1 t.read_time_stamps (by rw [hwf.time_rows])
    hwf.time_width
  refine ⟨s, data1, data2, hs, hw1, hw2, ?_⟩
  simp only [main_body, hl, hr, hwf.l_wrist_pos_rows, hs, hw1, hw2]
  by_cases h1 : env.h5_write names.out_file_name names.in_group_name "arm_traj_1" data1
      = some Thrown.uncaught
  · simp only [h1, if_true, true_or]
  · by_cases h2 : env.h5_write names.out_file_name names.in_group_name "timestamp_1" data2
        = some Thrown.uncaught
    · simp only [h1, h2, if_true, if_false, or_true]
    · simp only [h1, h2, if_false, or_self]
      rfl

theorem sample_tables_well_formed [LinearOrderedField α] :
    tables_well_formed (sample_tables : Tables α) 2 := by
  refine ⟨rfl, rfl, rfl, rfl, rfl, rfl, rfl, rfl, rfl, ?_, ?_, ?_, ?_, ?_, ?_, ?_, ?_, ?_⟩ <;>
    intro row hrow <;>
    simp only [sample_tables, List.mem_cons, List.mem_singleton, List.not_mem_nil,
      or_false] at hrow <;>
    rcases hrow with h | h <;> rw [h] <;> simp

theorem sample_read_tables [LinearOrderedField α] (file_name group_name : String) :
    read_tables (sample_h5_read : String → String → String →
      Except Thrown (List (List α))) file_name group_name
      = Except.ok sample_tables := by
  simp [read_tables, read_h5, sample_h5_read, sample_tables, bind, Except.bind, pure,
    Except.pure]

theorem main_sample_env [LinearOrderedField α] (write_outcome : Option Thrown)
    (u : my_constraint_struct α) :
    ∃ out q, main (sample_env write_outcome) [] u
      = some (if write_outcome = some Thrown.uncaught then ⟨ProcessEnd.terminated, out, q⟩
          else ⟨ProcessEnd.exited 0, out ++ ["Joint path results successfully stored!"], q⟩) := by
  obtain ⟨s, data1, data2, _, _, _, hmain⟩ :=
    main_body_completes (sample_env write_outcome : MainEnv α)
    ⟨"test_imi_data_UR5.h5", "fengren", "mocap_ik_results.h5"⟩ sample_tables
    { u with
      l_num_wrist_seg := 0
      l_num_elbow_seg := 0
      l_num_shoulder_seg := 0
      r_num_wrist_seg := 0
      r_num_elbow_seg := 0
      r_num_shoulder_seg := 0 } 2 (sample_left_chain sample_fk) (sample_right_chain sample_fk)
    sample_tables_well_formed rfl rfl
  refine ⟨s.stdout, s.q_results, ?_⟩
  have hw : ∀ (d : String) (data : List (List α)),
      (sample_env write_outcome : MainEnv α).h5_write "mocap_ik_results.h5" "fengren" d data
        = write_outcome := fun _ _ => rfl
  simp only [hw, or_self] at hmain
  rw [← hmain]
  simp only [main, process_arguments]
  rw [show (sample_env write_outcome : MainEnv α).h5_read = sample_h5_read from rfl,
    sample_read_tables]

/-! ## The claims -/

/-- C1: when forward kinematics succeeds for the elbow, wrist and shoulder
segments, `compute_cost` returns the five weighted pose terms of the
specification, plus the continuity term `5 * ‖q - q_prev_arm‖` exactly when
the first-frame flag is false; `q_prev_arm` is entries 0..5 of `q_prev` for
the left arm and entries 6..11 for the right arm. -/
theorem compute_cost_formula [LinearOrderedField α] (m : MathOps α) (first_iter : Bool)
    (fk_solver : ChainFkSolverPos_recursive α) (q : Fin 6 → α)
    (num_wrist_seg num_elbow_seg num_shoulder_seg : Nat) (left_or_right : Bool)
    (fdata : my_constraint_struct α)
    (h : fk_succeeds fk_solver q num_wrist_seg num_elbow_seg num_shoulder_seg) :
    (first_iter = true →
      (compute_cost m first_iter fk_solver q num_wrist_seg num_elbow_seg num_shoulder_seg
        left_or_right fdata).cost
        = spec_pose_cost m (arm_target fdata left_or_right)
            (robot_pose fk_solver q num_wrist_seg num_elbow_seg num_shoulder_seg))
    ∧ (first_iter = false →
      (compute_cost m first_iter fk_solver q num_wrist_seg num_elbow_seg num_shoulder_seg
        left_or_right fdata).cost
        = spec_pose_cost m (arm_target fdata left_or_right)
            (robot_pose fk_solver q num_wrist_seg num_elbow_seg num_shoulder_seg)
          + 5 * Eigen.norm m (fun i => q i - arm_q_prev fdata left_or_right i))
    ∧ (∀ i : Fin 6, arm_q_prev fdata true i = fdata.q_prev ⟨i.val, by omega⟩
        ∧ arm_q_prev fdata false i = fdata.q_prev ⟨i.val + 6, by omega⟩) := by
  rw [compute_cost_of_fk_ok m first_iter fk_solver q _ _ _ left_or_right fdata h]
  refine ⟨?_, ?_, ?_⟩
  · intro hf
    simp [hf]
  · intro hf
    simp [hf, spec_continuity]
  · intro i
    constructor
    · rfl
    · simp [arm_q_prev, Fin.natAdd, add_comm]

/-- Witness for C1: the formula at a solver that succeeds everywhere. -/
theorem compute_cost_formula_witness :
    fk_succeeds (sample_fk : ChainFkSolverPos_recursive ℚ) (fun _ => 0) 7 3 0
    ∧ (compute_cost ⟨fun x => x, fun x => x⟩ false (sample_fk : ChainFkSolverPos_recursive ℚ)
        (fun _ => 0) 7 3 0 true sample_fdata).cost
      = spec_pose_cost ⟨fun x => x, fun x => x⟩ (arm_target sample_fdata true)
          (robot_pose sample_fk (fun _ => 0) 7 3 0)
        + 5 * Eigen.norm ⟨fun x => x, fun x => x⟩
            (fun i => (0 : ℚ) - arm_q_prev sample_fdata true i) :=
  ⟨sample_fk_succeeds _ 7 3 0,
    (compute_cost_formula ⟨fun x => x, fun x => x⟩ false sample_fk (fun _ => 0) 7 3 0 true
      sample_fdata (sample_fk_succeeds _ 7 3 0)).2.1 rfl⟩

/-- C2: if the forward-kinematics evaluation of the elbow, wrist or shoulder
segment reports failure, `compute_cost` returns exactly -1; the segments are
checked in the order elbow, wrist, shoulder (the message logged is that of the
first failing segment in this order), and no cost term is evaluated: the
result is the same for all math functions, flags and constraint data. -/
theorem compute_cost_fk_failure [LinearOrderedField α] (m : MathOps α) (first_iter : Bool)
    (fk_solver : ChainFkSolverPos_recursive α) (q : Fin 6 → α)
    (num_wrist_seg num_elbow_seg num_shoulder_seg : Nat) (left_or_right : Bool)
    (fdata : my_constraint_struct α)
    (h : (fk_solver.JntToCart q (u32 (num_elbow_seg + 1))).1 < 0
      ∨ (fk_solver.JntToCart q (u32 (num_wrist_seg + 1))).1 < 0
      ∨ (fk_solver.JntToCart q (u32 (num_shoulder_seg + 1))).1 < 0) :
    (compute_cost m first_iter fk_solver q num_wrist_seg num_elbow_seg num_shoulder_seg
        left_or_right fdata).cost = -1
    ∧ (compute_cost m first_iter fk_solver q num_wrist_seg num_elbow_seg num_shoulder_seg
        left_or_right fdata).log =
      (if (fk_solver.JntToCart q (u32 (num_elbow_seg + 1))).1 < 0 then
        ["FK solver failed when processing elbow link, something went wrong"]
      else if (fk_solver.JntToCart q (u32 (num_wrist_seg + 1))).1 < 0 then
        ["FK solver failed when processing wrist link, something went wrong"]
      else
        ["FK solver failed when processing shoulder link, something went wrong"])
    ∧ (∀ (m' : MathOps α) (first_iter' left_or_right' : Bool)
        (fdata' : my_constraint_struct α),
        compute_cost m' first_iter' fk_solver q num_wrist_seg num_elbow_seg
            num_shoulder_seg left_or_right' fdata'
          = compute_cost m first_iter fk_solver q num_wrist_seg num_elbow_seg
            num_shoulder_seg left_or_right fdata) := by
  have hf : ¬ fk_succeeds fk_solver q num_wrist_seg num_elbow_seg num_shoulder_seg := by
    rintro ⟨he, hw, hs⟩
    rcases h with h | h | h <;> omega
  refine ⟨?_, ?_, ?_⟩
  · rw [compute_cost_of_fk_fail m first_iter fk_solver q _ _ _ left_or_right fdata hf]
  · rw [compute_cost_of_fk_fail m first_iter fk_solver q _ _ _ left_or_right fdata hf]
  · intro m' first_iter' left_or_right' fdata'
    rw [compute_cost_of_fk_fail m first_iter fk_solver q _ _ _ left_or_right fdata hf,
      compute_cost_of_fk_fail m' first_iter' fk_solver q _ _ _ left_or_right' fdata' hf]

/-- Witness for C2: a solver that fails for the wrist segment (count 8) and
would also fail for a shoulder segment of count 6, but not for the elbow
(count 4): the cost is -1 and the wrist message is logged. -/
theorem compute_cost_fk_failure_witness :
    (((short_fk : ChainFkSolverPos_recursive ℚ).JntToCart (fun _ => 0) (u32 (3 + 1))).1 < 0
      ∨ ((short_fk : ChainFkSolverPos_recursive ℚ).JntToCart (fun _ => 0) (u32 (7 + 1))).1 < 0
      ∨ ((short_fk : ChainFkSolverPos_recursive ℚ).JntToCart (fun _ => 0) (u32 (5 + 1))).1 < 0)
    ∧ (compute_cost ⟨fun x => x, fun x => x⟩ false (short_fk : ChainFkSolverPos_recursive ℚ)
        (fun _ => 0) 7 3 5 true sample_fdata).cost = -1
    ∧ (compute_cost ⟨fun x => x, fun x => x⟩ false (short_fk : ChainFkSolverPos_recursive ℚ)
        (fun _ => 0) 7 3 5 true sample_fdata).log
      = ["FK solver failed when processing wrist link, something went wrong"] := by
  have hw : ((short_fk : ChainFkSolverPos_recursive ℚ).JntToCart (fun _ => 0)
      (u32 (3 + 1))).1 < 0
      ∨ ((short_fk : ChainFkSolverPos_recursive ℚ).JntToCart (fun _ => 0) (u32 (7 + 1))).1 < 0
      ∨ ((short_fk : ChainFkSolverPos_recursive ℚ).JntToCart (fun _ => 0) (u32 (5 + 1))).1 < 0 := by
    simp [short_fk, u32]
  have key := compute_cost_fk_failure ⟨fun x => x, fun x => x⟩ false
    (short_fk : ChainFkSolverPos_recursive ℚ) (fun _ => 0) 7 3 5 true sample_fdata hw
  refine ⟨hw, key.1, ?_⟩
  rw [key.2.1]
  simp [short_fk, u32]

/-- C5 (the code at a failing input): at the sample data on the first frame,
with both arms' targets met, the objective is 0 when both solvers succeed;
when the right arm's solver fails at the wrist segment the right-arm
`compute_cost` returns the sentinel -1 and `myfunc` returns the plain sum
`0 + (-1) = -1`, a negative objective below that of the successful
evaluation. -/
theorem myfunc_propagates_sentinel :
    (myfunc (⟨Real.sqrt, Real.arccos⟩ : MathOps ℝ) true (sample_left_chain sample_fk)
        (sample_right_chain sample_fk) 0 (fun _ => 0) [] sample_fdata).value = 0
    ∧ (compute_cost (⟨Real.sqrt, Real.arccos⟩ : MathOps ℝ) true short_fk
        ![0, 0, 0, 0, 0, 0] 7 3 0 false sample_fdata).cost = -1
    ∧ (myfunc (⟨Real.sqrt, Real.arccos⟩ : MathOps ℝ) true (sample_left_chain sample_fk)
        (sample_right_chain short_fk) 0 (fun _ => 0) [] sample_fdata).value = -1 := by
  have hok : ∀ side : Bool, (compute_cost (⟨Real.sqrt, Real.arccos⟩ : MathOps ℝ) true
      sample_fk ![0, 0, 0, 0, 0, 0] 7 3 0 side sample_fdata).cost = 0 := by
    intro side
    rw [compute_cost_of_fk_ok _ true sample_fk _ 7 3 0 side sample_fdata
      (sample_fk_succeeds _ 7 3 0), ← sample_target_eq_pose _ 7 3 0 side]
    have h := spec_pose_cost_self (⟨Real.sqrt, Real.arccos⟩ : MathOps ℝ) Real.sqrt_zero
      Real.arccos_one (arm_target sample_fdata side)
      (by cases side <;> simp [arm_target, sample_fdata])
    simp [h]
  have hbad : (compute_cost (⟨Real.sqrt, Real.arccos⟩ : MathOps ℝ) true short_fk
      ![0, 0, 0, 0, 0, 0] 7 3 0 false sample_fdata).cost = -1 := by
    rw [compute_cost_of_fk_fail _ true short_fk _ 7 3 0 false sample_fdata (short_fk_fails _)]
  have hseg : (sample_fdata : my_constraint_struct ℝ).l_num_wrist_seg = 7
      ∧ (sample_fdata : my_constraint_struct ℝ).l_num_elbow_seg = 3
      ∧ (sample_fdata : my_constraint_struct ℝ).l_num_shoulder_seg = 0
      ∧ (sample_fdata : my_constraint_struct ℝ).r_num_wrist_seg = 7
      ∧ (sample_fdata : my_constraint_struct ℝ).r_num_elbow_seg = 3
      ∧ (sample_fdata : my_constraint_struct ℝ).r_num_shoulder_seg = 0 :=
    ⟨rfl, rfl, rfl, rfl, rfl, rfl⟩
  refine ⟨?_, hbad, ?_⟩
  · rw [myfunc_value]
    simp only [left_arm_cost, right_arm_cost, setup_left_kdl_sample, setup_right_kdl_sample,
      hseg, hok]
    norm_num
  · rw [myfunc_value]
    simp only [left_arm_cost, right_arm_cost, setup_left_kdl_sample, setup_right_kdl_sample,
      hseg, hok, hbad]
    norm_num

/-- C6: the value returned by `myfunc` is the left-arm `compute_cost` at
`(x[0], ..., x[5])` plus the right-arm `compute_cost` at `(x[6], ..., x[11])`,
each with its own arm's solver, targets and segment numbers. There is no
cross term: the left summand is unchanged when entries 6..11 of `x` and the
whole right-arm part of the constraint data (targets, segment numbers, entries
6..11 of `q_prev`) are replaced by anything else, and symmetrically for the
right summand. -/
theorem myfunc_value_decoupled [LinearOrderedField α] (m : MathOps α) (first_iter : Bool)
    (left_chain right_chain : KdlChain α) (count : Int) (x : Fin 12 → α) (grad : List α)
    (f_data : my_constraint_struct α) :
    (myfunc m first_iter left_chain right_chain count x grad f_data).value
      = left_arm_cost m first_iter left_chain x f_data
        + right_arm_cost m first_iter right_chain x f_data
    ∧ (∀ (y : Fin 12 → α) (other : my_constraint_struct α),
        left_arm_cost m first_iter left_chain (merge_blocks x y) (with_right_arm f_data other)
          = left_arm_cost m first_iter left_chain x f_data)
    ∧ (∀ (y : Fin 12 → α) (other : my_constraint_struct α),
        right_arm_cost m first_iter right_chain (merge_blocks y x) (with_left_arm f_data other)
          = right_arm_cost m first_iter right_chain x f_data) := by
  refine ⟨myfunc_value m first_iter left_chain right_chain count x grad f_data, ?_, ?_⟩
  · intro y other
    unfold left_arm_cost
    have hx : (![merge_blocks x y 0, merge_blocks x y 1, merge_blocks x y 2,
        merge_blocks x y 3, merge_blocks x y 4, merge_blocks x y 5] : Fin 6 → α)
        = ![x 0, x 1, x 2, x 3, x 4, x 5] := by
      have h0 : (0 : Fin 12).val < 6 := by decide
      have h1 : (1 : Fin 12).val < 6 := by decide
      have h2 : (2 : Fin 12).val < 6 := by decide
      have h3 : (3 : Fin 12).val < 6 := by decide
      have h4 : (4 : Fin 12).val < 6 := by decide
      have h5 : (5 : Fin 12).val < 6 := by decide
      simp only [merge_blocks, h0, h1, h2, h3, h4, h5, if_true]
    have hs : setup_left_kdl left_chain (with_right_arm f_data other)
        = ((setup_left_kdl left_chain f_data).1,
            with_right_arm (setup_left_kdl left_chain f_data).2 other) := by
      by_cases h : f_data.l_num_wrist_seg = 0 ∨ f_data.l_num_elbow_seg = 0
          ∨ f_data.l_num_shoulder_seg = 0
      · simp [setup_left_kdl, with_right_arm, h]
      · simp [setup_left_kdl, with_right_arm, h]
    have ht : arm_target (with_right_arm f_data other) true = arm_target f_data true := by
      simp [arm_target, with_right_arm]
    have hq : arm_q_prev (with_right_arm f_data other) true = arm_q_prev f_data true := by
      funext i
      have hi : (Fin.castAdd 6 i).val < 6 := i.isLt
      simp only [arm_q_prev, with_right_arm, merge_blocks, hi, if_true]
    rw [hx, hs]
    exact congrArg CostEval.cost (compute_cost_congr m first_iter _ _ _ _ _ true _ _ ht hq)
  · intro y other
    unfold right_arm_cost
    have hx : (![merge_blocks y x 6, merge_blocks y x 7, merge_blocks y x 8,
        merge_blocks y x 9, merge_blocks y x 10, merge_blocks y x 11] : Fin 6 → α)
        = ![x 6, x 7, x 8, x 9, x 10, x 11] := by
      have h6 : ¬ ((6 : Fin 12).val < 6) := by decide
      have h7 : ¬ ((7 : Fin 12).val < 6) := by decide
      have h8 : ¬ ((8 : Fin 12).val < 6) := by decide
      have h9 : ¬ ((9 : Fin 12).val < 6) := by decide
      have h10 : ¬ ((10 : Fin 12).val < 6) := by decide
      have h11 : ¬ ((11 : Fin 12).val < 6) := by decide
      simp only [merge_blocks, h6, h7, h8, h9, h10, h11, if_false]
    have hs : setup_right_kdl right_chain (with_left_arm f_data other)
        = ((setup_right_kdl right_chain f_data).1,
            with_left_arm (setup_right_kdl right_chain f_data).2 other) := by
      by_cases h : f_data.r_num_wrist_seg = 0 ∨ f_data.r_num_elbow_seg = 0
          ∨ f_data.r_num_shoulder_seg = 0
      · simp [setup_right_kdl, with_left_arm, h]
      · simp [setup_right_kdl, with_left_arm, h]
    have ht : arm_target (with_left_arm f_data other) false = arm_target f_data false := by
      simp [arm_target, with_left_arm]
    have hq : arm_q_prev (with_left_arm f_data other) false = arm_q_prev f_data false := by
      funext i
      have hi : ¬ ((Fin.natAdd 6 i).val < 6) := by
        simp [Fin.natAdd]
      simp only [arm_q_prev, with_left_arm, merge_blocks, hi, if_false, Bool.false_eq_true]
    rw [hx, hs]
    exact congrArg CostEval.cost (compute_cost_congr m first_iter _ _ _ _ _ false _ _ ht hq)

/-- C7: when a gradient is requested with a 12-entry buffer, `myfunc` sets
each `grad[i]` to the central difference
`(C(x + eps * e_i) - C(x - eps * e_i)) / (2 * eps)` with `eps = 0.001`, where
`C` is the total two-arm cost: the left-arm `compute_cost` at
`(x[0], ..., x[5])` plus the right-arm `compute_cost` at `(x[6], ..., x[11])`,
both for the constraint data handed to `myfunc` (so the same previous
solution), which is also the value `myfunc` returns at `x`. Only coordinate
`i` of `x` differs between the two samples. -/
theorem myfunc_grad_central_difference [LinearOrderedField α] (m : MathOps α)
    (first_iter : Bool) (left_chain right_chain : KdlChain α) (count : Int)
    (x : Fin 12 → α) (grad : List α) (f_data : my_constraint_struct α)
    (hlen : grad.length = 12) (i : Fin 12) :
    (myfunc m first_iter left_chain right_chain count x grad f_data).grad[i.val]?
      = some (central_difference
          (fun x' => left_arm_cost m first_iter left_chain x' f_data
            + right_arm_cost m first_iter right_chain x' f_data)
          x i)
    ∧ (myfunc m first_iter left_chain right_chain count x grad f_data).value
      = left_arm_cost m first_iter left_chain x f_data
        + right_arm_cost m first_iter right_chain x f_data := by
  refine ⟨?_, myfunc_value m first_iter left_chain right_chain count x grad f_data⟩
  rw [myfunc_grad_entry m first_iter left_chain right_chain count x grad f_data hlen i]
  simp only [myfunc_value]

/-- Witness for C7: a 12-entry buffer at the sample data and `x = (1, ..., 1)`,
with `sqrt` and `acos` the identity: the two-arm cost is
`20 + 5 * (x[0]^2 + ... + x[11]^2)` and `grad[7]` is 10. -/
theorem myfunc_grad_central_difference_witness :
    ([0, 0, 0, 0, 0, 0, 0, 0, 0, 0, 0, 0] : List ℚ).length = 12
    ∧ (myfunc (⟨fun x => x, fun x => x⟩ : MathOps ℚ) false (sample_left_chain sample_fk)
        (sample_right_chain sample_fk) 0 (fun _ => 1)
        [0, 0, 0, 0, 0, 0, 0, 0, 0, 0, 0, 0] sample_fdata).grad[(7 : Fin 12).val]?
      = some (central_difference
          (fun x' => left_arm_cost (⟨fun x => x, fun x => x⟩ : MathOps ℚ) false
              (sample_left_chain sample_fk) x' sample_fdata
            + right_arm_cost (⟨fun x => x, fun x => x⟩ : MathOps ℚ) false
              (sample_right_chain sample_fk) x' sample_fdata)
          (fun _ => 1) 7)
    ∧ central_difference
          (fun x' => left_arm_cost (⟨fun x => x, fun x => x⟩ : MathOps ℚ) false
              (sample_left_chain sample_fk) x' sample_fdata
            + right_arm_cost (⟨fun x => x, fun x => x⟩ : MathOps ℚ) false
              (sample_right_chain sample_fk) x' sample_fdata)
          (fun _ => 1) 7 = 10
    ∧ (myfunc (⟨fun x => x, fun x => x⟩ : MathOps ℚ) false (sample_left_chain sample_fk)
        (sample_right_chain sample_fk) 0 (fun _ => 1)
        [0, 0, 0, 0, 0, 0, 0, 0, 0, 0, 0, 0] sample_fdata).value = 80 := by
  have h := myfunc_grad_central_difference (⟨fun x => x, fun x => x⟩ : MathOps ℚ) false
    (sample_left_chain sample_fk) (sample_right_chain sample_fk) 0 (fun _ => 1)
    [0, 0, 0, 0, 0, 0, 0, 0, 0, 0, 0, 0] sample_fdata rfl 7
  refine ⟨rfl, h.1, ?_, ?_⟩
  · have hne : ∀ (v : ℚ) (j : Fin 12), j ≠ 7 →
        Function.update (fun _ => (1 : ℚ)) 7 v j = 1 :=
      fun v j hj => by rw [Function.update_noteq hj]
    unfold central_difference
    simp only [sample_two_arm_cost, Function.update_same, hne _ 0 (by decide),
      hne _ 1 (by decide), hne _ 2 (by decide), hne _ 3 (by decide), hne _ 4 (by decide),
      hne _ 5 (by decide), hne _ 6 (by decide), hne _ 8 (by decide), hne _ 9 (by decide),
      hne _ 10 (by decide), hne _ 11 (by decide)]
    norm_num
  · rw [h.2, sample_two_arm_cost]
    norm_num

/-- C8: with the first-frame flag true, `compute_cost` does not depend on the
previous solution: replacing the 12-entry field `q_prev` by any two values
gives the same result. -/
theorem compute_cost_first_frame_indep [LinearOrderedField α] (m : MathOps α)
    (fk_solver : ChainFkSolverPos_recursive α) (q : Fin 6 → α)
    (num_wrist_seg num_elbow_seg num_shoulder_seg : Nat) (left_or_right : Bool)
    (fdata : my_constraint_struct α) (q_prev1 q_prev2 : Fin 12 → α) :
    compute_cost m true fk_solver q num_wrist_seg num_elbow_seg num_shoulder_seg
        left_or_right { fdata with q_prev := q_prev1 }
      = compute_cost m true fk_solver q num_wrist_seg num_elbow_seg num_shoulder_seg
        left_or_right { fdata with q_prev := q_prev2 } := by
  simp [compute_cost]

/-- C11: in the frame loop of `main` over `N` frames, the initial guess handed
to the optimizer for frame 0 is the vector of 12 zeros, and for every frame
`k` with `1 <= k < N` it is exactly the vector recorded at index `k - 1` of
the output sequence `q_results`. -/
theorem driver_initial_guesses [LinearOrderedField α]
    (optimize : my_constraint_struct α → Bool → (Fin 12 → α) → OptimizeResult α)
    (t : Tables α) (N : Nat) (constraint_data : my_constraint_struct α)
    (hwf : tables_well_formed t N) :
    ∃ s, frame_loop optimize t (initial_state N constraint_data) N = some s
      ∧ s.guesses.length = N
      ∧ (0 < N → s.guesses[0]? = some (List.replicate 12 0))
      ∧ ∀ k, 1 ≤ k → k < N →
          ∃ q, s.q_results[k - 1]? = some q ∧ s.guesses[k]? = some q := by
  obtain ⟨s, hs, hinv, _, _⟩ := frame_loop_inv optimize t N constraint_data hwf N (le_refl N)
  refine ⟨s, hs, hinv.guesses_len, ?_, ?_⟩
  · intro hN
    have hlt : 0 < s.guesses.length := by
      rw [hinv.guesses_len]
      exact hN
    rw [List.getElem?_eq_getElem hlt]
    rw [hinv.guess_zero _ (List.getElem?_eq_getElem hlt)]
  · intro k hk1 hkN
    have hlt : k - 1 < s.q_results.length := by
      rw [hinv.q_len]
      omega
    refine ⟨s.q_results[k - 1], List.getElem?_eq_getElem hlt, ?_⟩
    have h := hinv.guess_succ (k - 1) (by omega)
    rw [show k - 1 + 1 = k by omega] at h
    rw [h, List.getElem?_eq_getElem hlt]

/-- Witness for C11: the two sample frames; the guess for frame 1 is row 0 of
the output. -/
theorem driver_initial_guesses_witness :
    tables_well_formed (sample_tables : Tables ℚ) 2
    ∧ ∃ s, frame_loop sample_optimize (sample_tables : Tables ℚ)
        (initial_state 2 sample_fdata) 2 = some s
      ∧ s.guesses.length = 2
      ∧ (0 < 2 → s.guesses[0]? = some (List.replicate 12 0))
      ∧ ∀ k, 1 ≤ k → k < 2 →
          ∃ q, s.q_results[k - 1]? = some q ∧ s.guesses[k]? = some q :=
  ⟨sample_tables_well_formed,
    driver_initial_guesses sample_optimize sample_tables 2 sample_fdata
      sample_tables_well_formed⟩

/-- C12: the invariant of the trajectory driver, for an arbitrary optimizer
(any returned vector, any of the six termination statuses): the state at the
start of frame `k` exists; `first_iter` is set if and only if `k = 0`; for
`k >= 1` the vector the optimizer returned for frame `k - 1` is what `q_prev`
holds and what index `k - 1` of `q_results` records; and the rows at indices
below `k` are the same in every later state of the loop. -/
theorem driver_state_invariant [LinearOrderedField α]
    (optimize : my_constraint_struct α → Bool → (Fin 12 → α) → OptimizeResult α)
    (t : Tables α) (N : Nat) (constraint_data : my_constraint_struct α)
    (hwf : tables_well_formed t N) (k : Nat) (hk : k ≤ N) :
    ∃ s, frame_loop optimize t (initial_state N constraint_data) k = some s
      ∧ (s.first_iter = true ↔ k = 0)
      ∧ s.returned.length = k
      ∧ (1 ≤ k → ∃ r cd xd, r = optimize cd (decide (k = 1)) xd
          ∧ s.returned[k - 1]? = some r
          ∧ s.constraint_data.q_prev = r.x
          ∧ s.q_results[k - 1]? = some (List.ofFn r.x))
      ∧ ∀ k' s', k ≤ k' → k' ≤ N →
          frame_loop optimize t (initial_state N constraint_data) k' = some s' →
          ∀ j, j < k → s'.q_results[j]? = s.q_results[j]? := by
  obtain ⟨s, hs, hinv, _, hret⟩ := frame_loop_inv optimize t N constraint_data hwf k hk
  refine ⟨s, hs, ?_, hinv.returned_len, ?_, ?_⟩
  · rw [hinv.first]
    simp
  · intro hk1
    obtain ⟨cd, xd, hr⟩ := hret hk1
    exact ⟨_, cd, xd, rfl, hr, (hinv.prev _ hr).1, hinv.recorded _ _ hr⟩
  · intro k' s' hkk hkN hs' j hj
    obtain ⟨s'', hs'', _, hstable, _⟩ :=
      frame_loop_inv optimize t N constraint_data hwf k' hkN
    rw [hs'] at hs''
    injection hs'' with hs''
    rw [hs'']
    exact hstable k s hkk hs j hj

/-- Witness for C12: the state at the start of frame 1 of the two sample
frames. -/
theorem driver_state_invariant_witness :
    tables_well_formed (sample_tables : Tables ℚ) 2 ∧ 1 ≤ 2
    ∧ ∃ s, frame_loop sample_optimize (sample_tables : Tables ℚ)
        (initial_state 2 sample_fdata) 1 = some s
      ∧ (s.first_iter = true ↔ 1 = 0)
      ∧ s.returned.length = 1 :=
  ⟨sample_tables_well_formed, by decide,
    (driver_state_invariant sample_optimize sample_tables 2 sample_fdata
      sample_tables_well_formed 1 (by decide)).imp
      fun _ h => ⟨h.1, h.2.1, h.2.2.1⟩⟩

/-- C13 (the code at a failing input): whichever of the four exceptions the
HDF5 calls throw, `write_h5` returns `true` (the `return -1` of a `bool`
function), and `main`, run on the sample environment with every write
failing on a `FileIException`, still ends its output with the success
message. -/
theorem write_h5_failure_returns_true :
    (∀ e : H5Exception,
      write_h5 (fun _ _ _ _ => some (Thrown.caught e)) "mocap_ik_results.h5" "fengren"
        "arm_traj_1" 2 12 (List.replicate 2 (List.replicate 12 (0 : ℚ)))
        = some (Except.ok true))
    ∧ ∃ out q, main (sample_env (some (Thrown.caught H5Exception.FileIException))) []
        (sample_fdata : my_constraint_struct ℚ)
      = some ⟨ProcessEnd.exited 0, out ++ ["Joint path results successfully stored!"], q⟩ := by
  constructor
  · intro e
    cases e <;> rfl
  · obtain ⟨out, q, h⟩ := main_sample_env (some (Thrown.caught H5Exception.FileIException))
      (sample_fdata : my_constraint_struct ℚ)
    exact ⟨out, q, h⟩

/-- C16: the cost does not depend on the robot-geometry constants: replacing
the fields `l_robot_shoulder_pos` and `r_robot_shoulder_pos` of the constraint
data by any values leaves the result of `compute_cost` and the value and
gradient of `myfunc` unchanged; when forward kinematics succeeds, the robot
shoulder position in the cost is the position forward kinematics gives for
the shoulder segment. -/
theorem cost_indep_robot_shoulder [LinearOrderedField α] (m : MathOps α) (first_iter : Bool)
    (fk_solver : ChainFkSolverPos_recursive α) (q : Fin 6 → α)
    (num_wrist_seg num_elbow_seg num_shoulder_seg : Nat) (left_or_right : Bool)
    (left_chain right_chain : KdlChain α) (count : Int) (x : Fin 12 → α) (grad : List α)
    (fdata : my_constraint_struct α) (a b : Fin 3 → α) :
    compute_cost m first_iter fk_solver q num_wrist_seg num_elbow_seg num_shoulder_seg
        left_or_right { fdata with l_robot_shoulder_pos := a, r_robot_shoulder_pos := b }
      = compute_cost m first_iter fk_solver q num_wrist_seg num_elbow_seg num_shoulder_seg
        left_or_right fdata
    ∧ (myfunc m first_iter left_chain right_chain count x grad
        { fdata with l_robot_shoulder_pos := a, r_robot_shoulder_pos := b }).value
      = (myfunc m first_iter left_chain right_chain count x grad fdata).value
    ∧ (myfunc m first_iter left_chain right_chain count x grad
        { fdata with l_robot_shoulder_pos := a, r_robot_shoulder_pos := b }).grad
      = (myfunc m first_iter left_chain right_chain count x grad fdata).grad
    ∧ (fk_succeeds fk_solver q num_wrist_seg num_elbow_seg num_shoulder_seg →
        (compute_cost m first_iter fk_solver q num_wrist_seg num_elbow_seg num_shoulder_seg
          left_or_right fdata).cost
        = spec_pose_cost m (arm_target fdata left_or_right)
            ⟨(fk_solver.JntToCart q (u32 (num_shoulder_seg + 1))).2.p,
              (fk_solver.JntToCart q (u32 (num_elbow_seg + 1))).2.p,
              (fk_solver.JntToCart q (u32 (num_wrist_seg + 1))).2.p,
              Eigen.Map_Matrix3d_RowMajor
                (fk_solver.JntToCart q (u32 (num_wrist_seg + 1))).2.M⟩
          + (if first_iter then 0
              else spec_continuity m q (arm_q_prev fdata left_or_right))) := by
  refine ⟨compute_cost_robot_shoulder m first_iter fk_solver q _ _ _ left_or_right fdata a b,
    (myfunc_robot_shoulder m first_iter left_chain right_chain count x grad fdata a b).1,
    (myfunc_robot_shoulder m first_iter left_chain right_chain count x grad fdata a b).2, ?_⟩
  intro hfk
  rw [compute_cost_of_fk_ok m first_iter fk_solver q _ _ _ left_or_right fdata hfk]
  rfl

/-- Witness for C16: at the sample solver, which succeeds everywhere, the cost
is the specification's formula with the FK shoulder position. -/
theorem cost_indep_robot_shoulder_witness :
    fk_succeeds (sample_fk : ChainFkSolverPos_recursive ℚ) (fun _ => 0) 7 3 0
    ∧ (compute_cost (⟨fun x => x, fun x => x⟩ : MathOps ℚ) true sample_fk (fun _ => 0) 7 3 0
          true sample_fdata).cost
        = spec_pose_cost ⟨fun x => x, fun x => x⟩ (arm_target sample_fdata true)
            ⟨(sample_fk.JntToCart (fun _ => 0) (u32 (0 + 1))).2.p,
              (sample_fk.JntToCart (fun _ => 0) (u32 (3 + 1))).2.p,
              (sample_fk.JntToCart (fun _ => 0) (u32 (7 + 1))).2.p,
              Eigen.Map_Matrix3d_RowMajor
                (sample_fk.JntToCart (fun _ => 0) (u32 (7 + 1))).2.M⟩
          + (if true = true then 0
              else spec_continuity ⟨fun x => x, fun x => x⟩ (fun _ => 0)
                (arm_q_prev sample_fdata true)) :=
  ⟨sample_fk_succeeds _ 7 3 0,
    (cost_indep_robot_shoulder ⟨fun x => x, fun x => x⟩ true sample_fk (fun _ => 0) 7 3 0 true
      (sample_left_chain sample_fk) (sample_right_chain sample_fk) 0 (fun _ => 0) []
      sample_fdata (fun _ => 0) (fun _ => 0)).2.2.2 (sample_fk_succeeds _ 7 3 0)⟩

/-- C17: in exact arithmetic the gradient `myfunc` computes is the per-arm
gradient: for `i` in 0..5, `grad[i]` is the central difference of the left-arm
cost alone, and `grad[6 + i]` is the central difference of the right-arm cost
alone in its coordinate `i`; the other arm's cost, evaluated at the same
unperturbed joint values in both samples, cancels (whatever it returns, the
-1 sentinel included). -/
theorem myfunc_grad_per_arm [LinearOrderedField α] (m : MathOps α)
    (first_iter : Bool) (left_chain right_chain : KdlChain α) (count : Int)
    (x : Fin 12 → α) (grad : List α) (f_data : my_constraint_struct α)
    (hlen : grad.length = 12) (i : Fin 6) :
    (myfunc m first_iter left_chain right_chain count x grad f_data).grad[i.val]?
      = some (central_difference
          (fun x' => left_arm_cost m first_iter left_chain x' f_data) x (Fin.castAdd 6 i))
    ∧ (myfunc m first_iter left_chain right_chain count x grad f_data).grad[6 + i.val]?
      = some (central_difference
          (fun x' => right_arm_cost m first_iter right_chain x' f_data) x (Fin.natAdd 6 i)) := by
  constructor
  · have h := myfunc_grad_entry m first_iter left_chain right_chain count x grad f_data hlen
      (Fin.castAdd 6 i)
    rw [show (Fin.castAdd 6 i).val = i.val from rfl] at h
    rw [h]
    unfold central_difference
    simp only [myfunc_value, right_arm_cost_update_left, add_sub_add_right_eq_sub]
  · have h := myfunc_grad_entry m first_iter left_chain right_chain count x grad f_data hlen
      (Fin.natAdd 6 i)
    rw [show (Fin.natAdd 6 i).val = 6 + i.val from rfl] at h
    rw [h]
    unfold central_difference
    simp only [myfunc_value, left_arm_cost_update_right, add_sub_add_left_eq_sub]

/-- Witness for C17: a 12-entry buffer at the sample data, with the right
arm's solver failing (the right-arm cost is the -1 sentinel). -/
theorem myfunc_grad_per_arm_witness :
    ([0, 0, 0, 0, 0, 0, 0, 0, 0, 0, 0, 0] : List ℚ).length = 12
    ∧ (myfunc (⟨fun x => x, fun x => x⟩ : MathOps ℚ) false (sample_left_chain sample_fk)
        (sample_right_chain short_fk) 0 (fun _ => 0)
        [0, 0, 0, 0, 0, 0, 0, 0, 0, 0, 0, 0] sample_fdata).grad[(2 : Fin 6).val]?
      = some (central_difference
          (fun x' => left_arm_cost (⟨fun x => x, fun x => x⟩ : MathOps ℚ) false
            (sample_left_chain sample_fk) x' sample_fdata)
          (fun _ => 0) (Fin.castAdd 6 2)) :=
  ⟨rfl, (myfunc_grad_per_arm ⟨fun x => x, fun x => x⟩ false (sample_left_chain sample_fk)
    (sample_right_chain short_fk) 0 (fun _ => 0) [0, 0, 0, 0, 0, 0, 0, 0, 0, 0, 0, 0]
    sample_fdata rfl 2).1⟩

/-- C18: index safety of the trajectory driver. When the nine tables have `N`
rows, position rows of width 3, orientation rows of width 9 and time rows of
width at least 1: for every frame `k < N` the loop reaches frame `k` and the
loop body runs with every access in bounds, the branch reading
`q_results[it - 1]` being taken only for `k >= 1`; after the loop `q_results`
has exactly `N` rows of 12 entries and the two `write_h5` calls (`N x 12` and
`N x 1`) run with every access in bounds; so `main`, past the reading of the
tables, ends without an access out of bounds. -/
theorem driver_index_safety [LinearOrderedField α] (env : MainEnv α) (names : Names)
    (t : Tables α) (constraint_data : my_constraint_struct α) (N : Nat)
    (hwf : tables_well_formed t N) :
    (∀ (cd : my_constraint_struct α) (k : Nat), k < N →
      ∃ s s', frame_loop env.optimize t (initial_state N cd) k = some s
        ∧ frame_body env.optimize t k s = some s'
        ∧ (s.first_iter = false → 1 ≤ k))
    ∧ (∀ cd : my_constraint_struct α,
      ∃ s, frame_loop env.optimize t (initial_state N cd) N = some s
        ∧ s.q_results.length = N
        ∧ (∀ row ∈ s.q_results, row.length = 12)
        ∧ (write_h5 env.h5_write names.out_file_name names.in_group_name "arm_traj_1" N 12
            s.q_results).isSome = true
        ∧ (write_h5 env.h5_write names.out_file_name names.in_group_name "timestamp_1" N 1
            t.read_time_stamps).isSome = true)
    ∧ ∃ r, main_body env names t constraint_data = some r := by
  refine ⟨?_, ?_, ?_⟩
  · intro cd k hk
    obtain ⟨s, hs, hinv, _, _⟩ := frame_loop_inv env.optimize t N cd hwf k (by omega)
    obtain ⟨s', hs', _, _, _, _⟩ := frame_body_step env.optimize t N k s hwf hinv hk
    refine ⟨s, s', hs, hs', ?_⟩
    intro hf
    rw [hinv.first] at hf
    by_contra hcon
    have h0 : k = 0 := by omega
    simp [h0] at hf
  · intro cd
    obtain ⟨s, hs, hinv, _, _⟩ := frame_loop_inv env.optimize t N cd hwf N (le_refl N)
    obtain ⟨_, _, hw1⟩ := write_h5_some env.h5_write names.out_file_name names.in_group_name
      "arm_traj_1" N 12 s.q_results (by rw [hinv.q_len])
      (fun row hrow => by rw [hinv.rows row hrow])
    obtain ⟨_, _, hw2⟩ := write_h5_some env.h5_write names.out_file_name names.in_group_name
      "timestamp_1" N 1 t.read_time_stamps (by rw [hwf.time_rows]) hwf.time_width
    refine ⟨s, hs, hinv.q_len, hinv.rows, ?_, ?_⟩
    · rw [hw1]
      rfl
    · rw [hw2]
      rfl
  · cases hl : env.left_chain with
    | none => exact ⟨⟨ProcessEnd.exited (-1), [], []⟩, by simp only [main_body, hl]⟩
    | some left_chain =>
      cases hr : env.right_chain with
      | none => exact ⟨⟨ProcessEnd.exited (-1), [], []⟩, by simp only [main_body, hl, hr]⟩
      | some right_chain =>
        obtain ⟨s, _, _, _, _, _, hmain⟩ := main_body_completes env names t constraint_data N
          left_chain right_chain hwf hl hr
        exact ⟨_, hmain⟩

/-- Witness for C18: the two sample frames in the sample environment. -/
theorem driver_index_safety_witness :
    tables_well_formed (sample_tables : Tables ℚ) 2
    ∧ ∃ r, main_body (sample_env none) ⟨"test_imi_data_UR5.h5", "fengren", "mocap_ik_results.h5"⟩
        (sample_tables : Tables ℚ) sample_fdata = some r :=
  ⟨sample_tables_well_formed,
    (driver_index_safety (sample_env none)
      ⟨"test_imi_data_UR5.h5", "fengren", "mocap_ik_results.h5"⟩ sample_tables sample_fdata 2
      sample_tables_well_formed).2.2⟩

end ArmRetarget
